import Mathlib

/-!
# Taiga: the action router `ExecuteAction` (src/action.cpp)

A shallow embedding of `ExecuteAction` and the properties of its parser and
of its handlers.

Conventions of the embedding

* `std::wstring` is `String`; `size_t` is a natural number below `2 ^ w`
  with wrap-around subtraction, `w` being the width of `size_t`; `int` is an
  `Int` brought back into the 32-bit range by `toInt32`.
* The globals the router reads and writes (login flag, filters, anime
  database, event list, dialog windows, settings) are the fields of `State`.
  Getters (`Get…`, `Is…`, `FindList`, `FindItem`) read the like-named field.
* Every other call into a collaborator (dialogs, the MAL client, the event
  queue, the announcer, the shell) is appended to `State.calls` with its
  arguments, in program order.  A value returned by such a call is supplied by
  the environment `Env` as a function of the state reached, call history
  included.  A recorded call changes no other field, with these exceptions:
  `Create` makes the window exist, `CheckFolder` leaves the item with the
  folder the environment reports, and the setters `SetMyStatus`,
  `SetMyLastWatchedEpisode`, `SetFolder` and `CurrentEpisode.Set` write the
  field they name.
* `debug::Print` appends to `State.debug`.
* The router calls itself; `ExecuteAction` therefore takes a recursion budget
  and reports `Outcome.outOfFuel` when it is used up.  Dereferencing a null
  item pointer is reported as `Outcome.fault`.
-/

namespace Taiga

/-! ## Machine integers and strings -/

/-- Conversion to the 32-bit `int` (two's complement wrap-around). -/
def toInt32 (x : Int) : Int := (x + 2147483648) % 4294967296 - 2147483648

/-- The value `std::wstring::npos`, the largest `size_t`, for a `size_t` of `w` bits. -/
def npos (w : Nat) : Nat := 2 ^ w - 1

/-- Subtraction of two `size_t` values: modulo `2 ^ w`. -/
def size_sub (w a b : Nat) : Nat := (a % 2 ^ w + 2 ^ w - b % 2 ^ w) % 2 ^ w

/-- Addition of two `size_t` values: modulo `2 ^ w`. -/
def size_add (w a b : Nat) : Nat := (a + b) % 2 ^ w

/-- Index of the first occurrence of `c`, if any. -/
def firstIndex (c : Char) : List Char → Option Nat
  | [] => none
  | x :: xs => if x = c then some 0 else (firstIndex c xs).map (· + 1)

/-- Index of the last occurrence of `c`, if any. -/
def lastIndex (c : Char) : List Char → Option Nat
  | [] => none
  | x :: xs =>
    match lastIndex c xs with
    | some i => some (i + 1)
    | none => if x = c then some 0 else none

/-- The call `s.find(c)`: the first index of `c`, or `npos`. -/
def find (w : Nat) (s : String) (c : Char) : Nat :=
  (firstIndex c s.data).getD (npos w)

/-- The call `s.find_last_of(c)`: the last index of `c`, or `npos`. -/
def find_last_of (w : Nat) (s : String) (c : Char) : Nat :=
  (lastIndex c s.data).getD (npos w)

/-- The call `s.substr(pos, count)` for `pos <= s.size()`: at most `count`
characters from index `pos` on. -/
def substr (s : String) (pos count : Nat) : String :=
  String.mk ((s.data.drop pos).take count)

/-- The call `s.resize(n)` for `n <= s.size()`: the first `n` characters. -/
def resize (s : String) (n : Nat) : String :=
  String.mk (s.data.take n)

/-- Modelled from the spec: `Trim` (declared in string.h, which is not under
src/) removes leading and trailing whitespace; `trim_chars` are the characters
it counts as whitespace. -/
def Trim (trim_chars : List Char) (s : String) : String :=
  String.mk
    (((s.data.dropWhile (fun c => decide (c ∈ trim_chars))).reverse.dropWhile
      (fun c => decide (c ∈ trim_chars))).reverse)

/-- Lines 62-69 of `ExecuteAction`: the action string is split into the verb
(returned first) and the body. -/
def parseAction (w : Nat) (trim_chars : List Char) (action : String) : String × String :=
  let pos := find w action '('
  let split : String × String :=
    if pos ≠ npos w then
      (resize action pos,
       substr action (size_add w pos 1)
         (size_sub w (find_last_of w action ')') (size_add w pos 1)))
    else (action, "")
  (Trim trim_chars split.1, Trim trim_chars split.2)

/-! ## Data model -/

/-- The values of the `HTTP_MAL_…` request modes that the router names; every
other mode is `other`. -/
inductive HttpMode
  | HTTP_MAL_AnimeAdd
  | HTTP_MAL_AnimeDelete
  | HTTP_MAL_AnimeEdit
  | HTTP_MAL_ScoreUpdate
  | HTTP_MAL_StatusUpdate
  | HTTP_MAL_TagUpdate
  | other (code : Nat)
  deriving DecidableEq, Repr

/-- The values of `GetAiringStatus()` that `EditStatus` switches on; every
other value is `other`. -/
inductive AiringStatus
  | STATUS_AIRING
  | STATUS_FINISHED
  | STATUS_NOTYETAIRED
  | other (code : Int)
  deriving DecidableEq, Repr

/-- An `EventItem`.  A field is `none` as long as the router has not assigned
it (it then holds whatever the constructor of `EventItem` put there). -/
structure EventItem where
  anime_id : Option Int := none
  episode : Option Int := none
  score : Option Int := none
  status : Option Int := none
  tags : Option String := none
  mode : Option HttpMode := none
  deriving DecidableEq, Repr

/-- The dialog windows the router shows. -/
inductive Window
  | AboutDialog
  | UpdateDialog
  | FilterDialog
  | AnimeDialog
  | MainDialog
  | RecognitionTest
  | SeasonDialog
  | SettingsDialog
  | SearchDialog
  | TorrentDialog
  | FeedFilterDialog
  deriving DecidableEq, Repr

/-- The name of the global object of a window. -/
def Window.objectName : Window → String
  | .AboutDialog => "AboutDialog"
  | .UpdateDialog => "UpdateDialog"
  | .FilterDialog => "FilterDialog"
  | .AnimeDialog => "AnimeDialog"
  | .MainDialog => "MainDialog"
  | .RecognitionTest => "RecognitionTest"
  | .SeasonDialog => "SeasonDialog"
  | .SettingsDialog => "SettingsDialog"
  | .SearchDialog => "SearchDialog"
  | .TorrentDialog => "TorrentDialog"
  | .FeedFilterDialog => "FeedFilterDialog"

/-- An argument of a recorded call: a number, a string, a boolean, a named
constant or object of the program (`sym`), the handle of a window, or an
event item. -/
inductive Arg
  | int (v : Int)
  | str (s : String)
  | flag (b : Bool)
  | sym (name : String)
  | hwnd (win : Window)
  | event (item : EventItem)
  deriving DecidableEq, Repr

/-- A recorded call into a collaborator. -/
structure Call where
  name : String
  args : List Arg
  deriving DecidableEq, Repr

/-- The part of an `anime::Item` that the router reads through its getters. -/
structure Item where
  title : String
  episode_count : Int
  /-- The value of `GetMyLastWatchedEpisode()`. -/
  my_last_watched_episode : Int
  /-- The value of `GetMyLastWatchedEpisode(false)`. -/
  my_last_watched_episode_stored : Int
  airing_status : AiringStatus
  folder : String
  in_list : Bool
  my_status : Int
  my_tags : String
  user_synonyms : List String
  deriving DecidableEq, Repr

/-- The globals `ExecuteAction` works on. -/
structure State where
  /-- Lines written by `debug::Print`. -/
  debug : List String
  /-- Calls into collaborators, oldest first. -/
  calls : List Call
  /-- The flag `Taiga.logged_in`. -/
  logged_in : Bool
  /-- The flag `Taiga.is_recognition_enabled`. -/
  is_recognition_enabled : Bool
  /-- The map `AnimeDatabase.items` as the list of its entries (anime id, item), one entry
  per id.  The order of the list carries no meaning: lookups go by id (`FindItem`) and a
  loop over the map visits the entries by ascending id (`inKeyOrder`). -/
  items : List (Int × Item)
  /-- The value of `AnimeDatabase.GetCurrentId()`. -/
  current_id : Int
  /-- The value of `AnimeDatabase.user.GetName()`. -/
  user_name : String
  /-- The list `EventQueue.FindList()` points to, `none` for a null pointer. -/
  event_list : Option (List EventItem)
  /-- The array `AnimeFilters.status`. -/
  filter_status : Fin 3 → Bool
  /-- The array `AnimeFilters.type`. -/
  filter_type : Fin 6 → Bool
  /-- The string `AnimeFilters.text`. -/
  filter_text : String
  /-- The flag `MainDialog.search_bar.filter_list`. -/
  search_bar_filter_list : Bool
  /-- The value of `IsWindow()` for each dialog. -/
  windows : Window → Bool
  /-- The settings `Settings.Account.MAL.user`, `.password` and `.api`. -/
  mal_user : String
  mal_password : String
  mal_api : Int
  /-- The settings `Settings.Folders.root` and `.watch_enabled`. -/
  folders_root : List String
  folders_watch_enabled : Bool
  /-- The setting `Settings.Program.List.progress_mode`. -/
  progress_mode : Int
  /-- The field `CurrentEpisode.anime_id`. -/
  current_episode_anime_id : Int
  /-- The fields `SeasonDialog.group_by` and `SeasonDialog.sort_by`. -/
  season_group_by : Int
  season_sort_by : Int

/-- What lies outside src/action.cpp: the width of `size_t`, constants and
pure helpers of headers that are not under src/, and the values that recorded
calls return. -/
structure Env where
  /-- Width of `size_t` in bits. -/
  size_bits : Nat
  /-- The characters `Trim` removes. -/
  trim_chars : List Char
  /-- The helper `ToInt` of string.h. -/
  ToInt : String → Int
  /-- The helper `ToWstr` of string.h, for an `int`. -/
  ToWstr : Int → String
  /-- The helper `Split(str, separator, vector)` of string.h. -/
  Split : String → String → List String
  /-- The helper `Join(vector, separator)` of string.h. -/
  Join : List String → String → String
  /-- The helper `EraseChars(str, chars)` of string.h. -/
  EraseChars : String → String → String
  /-- The helper `Erase(str, sub)` of string.h. -/
  Erase : String → String → String
  /-- The helper `Replace(str, what, with)` of string.h. -/
  Replace : String → String → String → String
  /-- The helper `ReplaceVariables(str, episode)`, for an episode that only has its anime id set. -/
  ReplaceVariables : String → Int → String
  /-- The helper `mal::IsValidEpisode(episode, watched, total)`. -/
  IsValidEpisode : Int → Int → Int → Bool
  MYSTATUS_WATCHING : Int
  MYSTATUS_COMPLETED : Int
  MYSTATUS_ONHOLD : Int
  MYSTATUS_PLANTOWATCH : Int
  ID_UNKNOWN : Int
  ID_NOTINLIST : Int
  MAL_API_OFFICIAL : Int
  LIST_PROGRESS_AVAILABLEEPS : Int
  PAGE_ACCOUNT : Int
  PAGE_FOLDERS_ROOT : Int
  /-- The boolean returned (or the non-nullness of the pointer returned) by the call recorded last. -/
  retBool : State → Bool
  /-- The integer returned by the call recorded last. -/
  retInt : State → Int
  /-- The string returned, or written to its output argument, by the call recorded last. -/
  retStr : State → String
  /-- The text of a member of `Stats` after `Stats.CalculateAll()`. -/
  statsText : State → String → String

/-- How a call of `ExecuteAction` ends: it returns (`done`), it dereferences a
null pointer, divides by zero or throws (`fault`), or the recursion budget is
used up (`outOfFuel`); each with the state reached. -/
inductive Outcome
  | done (st : State)
  | fault (st : State)
  | outOfFuel (st : State)

/-- The state an outcome carries. -/
def Outcome.state : Outcome → State
  | .done st => st
  | .fault st => st
  | .outOfFuel st => st

/-- Sequencing: the rest of a handler runs only when the nested call returned. -/
def Outcome.andThen (r : Outcome) (k : State → Outcome) : Outcome :=
  match r with
  | .done st => k st
  | .fault st => .fault st
  | .outOfFuel st => .outOfFuel st

/-- Win32 constants. -/
def TRUE : Int := 1

def FALSE : Int := 0

def IDOK : Int := 1

def IDYES : Int := 6

/-- The constant `RAND_MAX` of the C runtime the program is built with. -/
def RAND_MAX : Int := 32767

/-- Records a call into a collaborator. -/
def State.call (st : State) (name : String) (args : List Arg) : State :=
  { st with calls := st.calls ++ [⟨name, args⟩] }

/-- The call `debug::Print(text)`. -/
def State.print (st : State) (text : String) : State :=
  { st with debug := st.debug ++ [text] }

/-- The call `AnimeDatabase.FindItem(id)`; `none` is the null pointer. -/
def FindItem (st : State) (id : Int) : Option Item :=
  (st.items.find? (fun p => p.1 = id)).map (fun p => p.2)

/-- The call `AnimeDatabase.GetCurrentItem()`; `none` is the null pointer. -/
def GetCurrentItem (st : State) : Option Item :=
  FindItem st st.current_id

/-- A write through an item pointer: the item stored under `id` becomes `item`. -/
def State.setItem (st : State) (id : Int) (item : Item) : State :=
  { st with items := st.items.map (fun p => if p.1 = id then (p.1, item) else p) }

/-- The call `EventQueue.GetItemCount()`: the number of items of the list
`EventQueue.FindList()` points to, 0 when there is none. -/
def GetItemCount (st : State) : Nat :=
  match st.event_list with
  | some l => l.length
  | none => 0

/-- The call `win.Create(...)`: recorded, and the window exists afterwards. -/
def State.create (st : State) (win : Window) (args : List Arg) : State :=
  { st.call (win.objectName ++ ".Create") args with
    windows := fun v => if v = win then true else st.windows v }

/-- The show-or-activate idiom: `Create` when `IsWindow()` is false,
`ActivateWindow(GetWindowHandle())` otherwise. -/
def showWindow (st : State) (win : Window) (createArgs : List Arg) : State :=
  if !st.windows win then st.create win createArgs
  else st.call "ActivateWindow" [.hwnd win]

/-! ## Handlers: session -/

/-- Handler of `Login` (lines 76-85); `self` is the router itself. -/
def Login (env : Env) (self : String → Int → Int → State → Outcome) (st : State) : Outcome :=
  if st.items.length > 0 then
    let st1 := st.call "MainDialog.ChangeStatus" [.str "Logging in..."]
    let st2 := st1.call "mal::Login" []
    let result := env.retBool st2
    let st3 := st2.call "MainDialog.EnableInput" [.flag (!result)]
    .done (if !result then st3.call "MainDialog.ChangeStatus" [] else st3)
  else
    self "Synchronize" TRUE 0 st

/-- Handler of `Logout` (lines 89-99). -/
def Logout (body : String) (st : State) : Outcome :=
  if st.logged_in then
    let st1 := { st with logged_in := false }
    let st2 := st1.call "MainDialog.toolbar_main.SetButtonImage" [.int 0, .sym "ICON24_OFFLINE"]
    let st3 := st2.call "MainDialog.toolbar_main.SetButtonText" [.int 0, .str "Log in"]
    let st4 := st3.call "MainDialog.toolbar_main.SetButtonTooltip" [.int 0, .str "Log in"]
    let st5 := st4.call "MainDialog.ChangeStatus"
      [.str ((if body = "" then st.mal_user else body) ++ " is now logged out.")]
    let st6 := st5.call "MainDialog.RefreshMenubar" []
    let st7 := st6.call "MainDialog.UpdateTip" []
    .done (st7.call "MainClient.ClearCookies" [])
  else .done st

/-- Handler of `LoginLogout` and `ToggleLogin` (lines 103-104). -/
def LoginLogout (self : String → Int → Int → State → Outcome) (st : State) : Outcome :=
  self (if st.logged_in then "Logout" else "Login") 0 0 st

/-- The loop of lines 115-122: is there an item whose mode is `HTTP_MAL_AnimeAdd`? -/
def hasAnimeAdd : List EventItem → Bool
  | [] => false
  | it :: rest => if it.mode = some .HTTP_MAL_AnimeAdd then true else hasAnimeAdd rest

/-- Lines 125-128 of `Synchronize`: the list is refreshed. -/
def refreshList (env : Env) (wParam : Int) (st : State) : State :=
  let st1 := st.call "MainDialog.ChangeStatus" [.str "Refreshing list..."]
  let st2 := st1.call "mal::GetList" [.flag (decide (wParam = TRUE))]
  let result := env.retBool st2
  let st3 := st2.call "MainDialog.EnableInput" [.flag (!result)]
  if !result then st3.call "MainDialog.ChangeStatus" [] else st3

/-- Handler of `Synchronize` (lines 109-129). -/
def Synchronize (env : Env) (self : String → Int → Int → State → Outcome) (wParam : Int)
    (st : State) : Outcome :=
  if st.logged_in && decide (GetItemCount st > 0) then
    .done (st.call "EventQueue.Check" [])
  else
    match st.event_list with
    | some event_list =>
      if hasAnimeAdd event_list then self "Login" 0 0 st
      else .done (refreshList env wParam st)
    | none => .done (refreshList env wParam st)

/-! ## Handlers: pages, links and windows -/

/-- Handler of `URL` (lines 149-156). -/
def URL (env : Env) (body : String) (st : State) : Outcome :=
  if st.current_id > env.ID_UNKNOWN then
    match GetCurrentItem st with
    | none => .fault st
    | some item =>
      let title := env.Erase (env.EraseChars item.title "_!?.,:;~+") " -"
      .done (st.call "ExecuteLink" [.str (env.Replace body "%title%" title)])
  else .done (st.call "ExecuteLink" [.str body])

/-- The expression `lParam ? static_cast<int>(lParam) : AnimeDatabase.GetCurrentId()`. -/
def animeIdOf (lParam : Int) (st : State) : Int :=
  if lParam ≠ 0 then toInt32 lParam else st.current_id

/-- Handler of `Info` (lines 195-203). -/
def Info (lParam : Int) (st : State) : Outcome :=
  let st1 := st.call "AnimeDialog.Refresh" [.int (animeIdOf lParam st)]
  let st2 := st1.call "AnimeDialog.SetCurrentPage" [.sym "INFOPAGE_SERIESINFO"]
  .done (showWindow st2 .AnimeDialog [.sym "IDD_ANIME_INFO", .sym "g_hMain", .flag false])

/-- Handler of `EditAll` (lines 551-559). -/
def EditAll (lParam : Int) (st : State) : Outcome :=
  let st1 := st.call "AnimeDialog.Refresh" [.int (animeIdOf lParam st)]
  let st2 := st1.call "AnimeDialog.SetCurrentPage" [.sym "INFOPAGE_MYINFO"]
  .done (showWindow st2 .AnimeDialog [.sym "IDD_ANIME_INFO", .sym "g_hMain", .flag false])

/-- Handler of `SetSearchMode` (lines 235-249). -/
def SetSearchMode (env : Env) (body : String) (st : State) : Outcome :=
  let body_vector := env.Split body ", "
  if body_vector.length > 2 then
    if body_vector.getD 1 "" = "MAL" then
      .done (st.call "MainDialog.search_bar.SetMode"
        [.int (toInt32 (env.ToInt (body_vector.getD 0 ""))), .sym "SEARCH_MODE_MAL",
         .str (body_vector.getD 2 "")])
    else if body_vector.getD 1 "" = "Torrent" && decide (body_vector.length > 3) then
      .done (st.call "MainDialog.search_bar.SetMode"
        [.int (toInt32 (env.ToInt (body_vector.getD 0 ""))), .sym "SEARCH_MODE_TORRENT",
         .str (body_vector.getD 2 ""), .str (body_vector.getD 3 "")])
    else if body_vector.getD 1 "" = "Web" && decide (body_vector.length > 3) then
      .done (st.call "MainDialog.search_bar.SetMode"
        [.int (toInt32 (env.ToInt (body_vector.getD 0 ""))), .sym "SEARCH_MODE_WEB",
         .str (body_vector.getD 2 ""), .str (body_vector.getD 3 "")])
    else .done st
  else .done st

/-- Handler of `ToggleListSearch` (lines 253-263). -/
def ToggleListSearch (env : Env) (st : State) : Outcome :=
  let st1 := { st with search_bar_filter_list := !st.search_bar_filter_list }
  if !st1.search_bar_filter_list then
    .done ({ st1 with filter_text := "" }.call "MainDialog.RefreshList" [])
  else
    let st2 := st1.call "MainDialog.edit.GetText" []
    let st3 := { st2 with filter_text := env.retStr st2 }
    if st3.filter_text ≠ "" then .done (st3.call "MainDialog.RefreshList" [.int 0])
    else .done st3

/-- Handler of `Settings` (lines 268-274). -/
def Settings (lParam : Int) (st : State) : Outcome :=
  let st1 := st.call "SettingsDialog.SetCurrentPage" [.int lParam]
  .done (showWindow st1 .SettingsDialog [.sym "IDD_SETTINGS", .sym "g_hMain", .flag true])

/-- Handler of `SearchAnime` (lines 281-303). -/
def SearchAnime (env : Env) (self : String → Int → Int → State → Outcome) (body : String)
    (st : State) : Outcome :=
  if body = "" then .done st
  else if st.mal_api = env.MAL_API_OFFICIAL
      ∧ (st.mal_user = "" ∨ st.mal_password = "") then
    let st1 := st.call "win32::TaskDialog" [.sym "APP_TITLE", .sym "TD_ICON_INFORMATION"]
    let st2 := st1.call "TaskDialog.SetMainInstruction"
      [.str "Would you like to set your account information first?"]
    let st3 := st2.call "TaskDialog.SetContent"
      [.str ("Anime search requires authentication, which means, "
        ++ "you need to enter a valid user name and password to search MyAnimeList.")]
    let st4 := st3.call "TaskDialog.AddButton" [.str "Yes", .sym "IDYES"]
    let st5 := st4.call "TaskDialog.AddButton" [.str "No", .sym "IDNO"]
    let st6 := st5.call "TaskDialog.Show" [.sym "g_hMain"]
    if env.retInt st6 = IDYES then self "Settings" 0 env.PAGE_ACCOUNT st6
    else .done st6
  else
    let st1 := showWindow st .SearchDialog [.sym "IDD_SEARCH", .sym "g_hMain", .flag false]
    .done (st1.call "SearchDialog.Search" [.str body])

/-- Handler of `SearchTorrents` (lines 306-315). -/
def SearchTorrents (env : Env) (self : String → Int → Int → State → Outcome) (body : String)
    (st : State) : Outcome :=
  let st1 := st.call "Aggregator.Get" [.sym "FEED_CATEGORY_LINK"]
  if env.retBool st1 then
    let anime_id := st1.current_id
    (self "Torrents" 0 0 st1).andThen fun st2 =>
      match GetCurrentItem st2 with
      | none => .fault st2
      | some item =>
        let st3 := st2.call "TorrentDialog.ChangeStatus"
          [.str ("Searching torrents for \"" ++ item.title ++ "\"...")]
        .done (st3.call "Feed::Check" [.str (env.ReplaceVariables body anime_id)])
  else .done st1

/-- Handler of `ShowListStats` (lines 318-333). -/
def ShowListStats (env : Env) (st : State) : Outcome :=
  let st1 := st.call "Stats.CalculateAll" []
  if st1.user_name ≠ "" then
    let main_instruction := st1.user_name ++ "\x27s anime list stats:"
    let content :=
      "• Anime count: \t\t" ++ env.statsText st1 "anime_count"
      ++ "\n• Episode count: \t\t" ++ env.statsText st1 "episode_count"
      ++ "\n• Life spent watching: \t" ++ env.statsText st1 "life_spent_watching"
      ++ "\n• Mean score: \t\t" ++ env.statsText st1 "score_mean"
      ++ "\n• Score deviation: \t\t" ++ env.statsText st1 "score_deviation"
    let st2 := st1.call "win32::TaskDialog" [.sym "APP_TITLE", .sym "TD_ICON_INFORMATION"]
    let st3 := st2.call "TaskDialog.SetMainInstruction" [.str main_instruction]
    let st4 := st3.call "TaskDialog.SetContent" [.str content]
    let st5 := st4.call "TaskDialog.AddButton" [.str "OK", .sym "IDOK"]
    .done (st5.call "TaskDialog.Show" [.sym "g_hMain"])
  else .done st1

/-! ## Handlers: list, folders and recognition -/

/-- The call `CurrentEpisode.Set(anime_id)`. -/
def setCurrentEpisode (anime_id : Int) (st : State) : State :=
  { st.call "CurrentEpisode.Set" [.int anime_id] with current_episode_anime_id := anime_id }

/-- The call `item->SetMyDate(anime::DATE_END, GetDate(), a, b)` on the item stored under `id`. -/
def setEndDate (env : Env) (id : Int) (a b : Bool) (st : State) : State :=
  let st1 := st.call "GetDate" []
  st1.call "anime::Item::SetMyDate"
    [.int id, .sym "anime::DATE_END", .str (env.retStr st1), .flag a, .flag b]

/-- Handler of `AddToListAs` (lines 361-389). -/
def AddToListAs (env : Env) (body : String) (lParam : Int) (st : State) : Outcome :=
  let status := toInt32 (env.ToInt body)
  let anime_id := toInt32 lParam
  match FindItem st anime_id with
  | none => .fault st
  | some item0 =>
    let st1 := st.call "anime::Item::AddtoUserList" [.int anime_id]
    let item1 := { item0 with my_status := status }
    let st2 := (st1.call "anime::Item::SetMyStatus" [.int anime_id, .int status]).setItem
      anime_id item1
    let item2 :=
      if status = env.MYSTATUS_COMPLETED then
        { item1 with my_last_watched_episode_stored := item1.episode_count }
      else item1
    let st3 :=
      if status = env.MYSTATUS_COMPLETED then
        setEndDate env anime_id true false
          ((st2.call "anime::Item::SetMyLastWatchedEpisode"
            [.int anime_id, .int item1.episode_count]).setItem anime_id item2)
      else st2
    let st4 := st3.call "AnimeDatabase.UpdateItem" [.int anime_id]
    let st5 := st4.call "AnimeDatabase.SaveList"
      [.int anime_id, .str "", .str "", .sym "anime::ADD_ANIME"]
    let st6 :=
      if st5.current_episode_anime_id = env.ID_NOTINLIST then setCurrentEpisode env.ID_UNKNOWN st5
      else st5
    let st7 := st6.call "MainDialog.RefreshList" [.int status]
    let st8 := st7.call "MainDialog.RefreshTabs" [.int status]
    let st9 := st8.call "SearchDialog.RefreshList" []
    let item : EventItem :=
      { anime_id := some anime_id
        episode := some (if item2.my_last_watched_episode_stored ≠ 0
          then item2.my_last_watched_episode_stored else -1)
        status := some status
        mode := some .HTTP_MAL_AnimeAdd }
    .done (st9.call "EventQueue.Add" [.event item])

/-- Handler of `AddFolder` (lines 402-409). -/
def AddFolder (env : Env) (self : String → Int → Int → State → Outcome) (st : State) : Outcome :=
  let st1 := st.call "BrowseForFolder"
    [.sym "g_hMain", .str "Please select a folder:",
     .sym "BIF_NEWDIALOGSTYLE | BIF_NONEWFOLDERBUTTON"]
  if env.retBool st1 then
    let st2 := { st1 with folders_root := st1.folders_root ++ [env.retStr st1] }
    let st3 := if st2.folders_watch_enabled then st2.call "FolderMonitor.Enable" [] else st2
    self "Settings" 0 env.PAGE_FOLDERS_ROOT st3
  else .done st1

/-- The argument `progress_mode == LIST_PROGRESS_AVAILABLEEPS ? -1 : 0` of `CheckEpisodes`. -/
def checkEpisodesArg (env : Env) (st : State) : Int :=
  if st.progress_mode = env.LIST_PROGRESS_AVAILABLEEPS then -1 else 0

/-- The entries of the map `AnimeDatabase.items` in the order in which
`for (it = items.begin(); it != items.end(); ++it)` visits them: a `std::map` is iterated by
ascending key, here the anime id. -/
def inKeyOrder (items : List (Int × Item)) : List (Int × Item) :=
  items.insertionSort (fun a b => a.1 ≤ b.1)

/-- The loop of lines 445-458 over the entries that remain to be visited (the caller passes
them in key order), `i` being the progress counter. -/
def checkAllEpisodes (env : Env) (silent check_folder : Bool) (size : Nat) :
    List (Int × Item) → Nat → State → State
  | [], _, st => st
  | (id, item) :: rest, i, st =>
    let st1 :=
      if !silent then st.call "TaskbarList.SetProgressValue" [.int i, .int size] else st
    let i1 := if !silent then i + 1 else i
    let st2 :=
      if item.my_status = env.MYSTATUS_WATCHING ∨ item.my_status = env.MYSTATUS_ONHOLD
          ∨ item.my_status = env.MYSTATUS_PLANTOWATCH then
        let st3 :=
          if !silent then
            st1.call "MainDialog.ChangeStatus" [.str ("Searching... (" ++ item.title ++ ")")]
          else st1
        st3.call "anime::Item::CheckEpisodes"
          [.int id, .int (checkEpisodesArg env st3), .flag check_folder]
      else st1
    checkAllEpisodes env silent check_folder size rest i1 st2

/-- Handler of `CheckEpisodes` (lines 420-469). -/
def CheckEpisodes (env : Env) (body : String) (wParam : Int) (st : State) : Outcome :=
  let silent := decide (wParam = TRUE)
  let st1 := if !silent then st.call "TaskbarList.SetProgressState" [.sym "TBPF_NORMAL"] else st
  let check_folder0 := !(st1.items.any fun p => p.2.in_list && decide (p.2.folder ≠ ""))
  let asked := check_folder0 && !silent && decide (st1.folders_root ≠ [])
  let st2 :=
    if asked then
      let d1 := st1.call "win32::TaskDialog" [.sym "APP_TITLE", .sym "TD_ICON_INFORMATION"]
      let d2 := d1.call "TaskDialog.SetMainInstruction"
        [.str "Would you like to search for anime folders first?"]
      let d3 := d2.call "TaskDialog.SetContent"
        [.str ("This feature only checks specific anime folders for new episodes. "
          ++ "As you have none set at the moment, searching for folders is highly recommended.")]
      let d4 := d3.call "TaskDialog.AddButton" [.str "Yes", .sym "IDYES"]
      let d5 := d4.call "TaskDialog.AddButton" [.str "No", .sym "IDNO"]
      d5.call "TaskDialog.Show" [.sym "g_hMain"]
    else st1
  let check_folder := if asked then decide (env.retInt st2 = IDYES) else check_folder0
  let finish (s : State) : Outcome :=
    if !silent then
      .done ((s.call "TaskbarList.SetProgressState" [.sym "TBPF_NOPROGRESS"]).call
        "MainDialog.ChangeStatus" [.str "Search finished."])
    else .done s
  if body = "" then
    finish (checkAllEpisodes env silent check_folder st2.items.length (inKeyOrder st2.items) 0
      st2)
  else
    match GetCurrentItem st2 with
    | none => .fault st2
    | some _ =>
      finish (st2.call "anime::Item::CheckEpisodes"
        [.int st2.current_id, .int (checkEpisodesArg env st2), .flag true])

/-- Handler of `ToggleRecognition` (lines 473-483). -/
def ToggleRecognition (env : Env) (st : State) : Outcome :=
  let st1 := { st with is_recognition_enabled := !st.is_recognition_enabled }
  if st1.is_recognition_enabled then
    .done (setCurrentEpisode env.ID_UNKNOWN
      (st1.call "MainDialog.ChangeStatus" [.str "Automatic anime recognition is now enabled."]))
  else
    let st2 := st1.call "MainDialog.ChangeStatus"
      [.str "Automatic anime recognition is now disabled."]
    let anime_id := st2.current_episode_anime_id
    let anime_item := FindItem st2 anime_id
    let st3 := setCurrentEpisode env.ID_NOTINLIST st2
    if anime_item.isSome then .done (st3.call "anime::Item::EndWatching" [.int anime_id])
    else .done st3

/-- The call `item->CheckFolder()` on the item stored under `id`: the result
and the state afterwards, the item holding the folder the check left it with. -/
def CheckFolder (env : Env) (id : Int) (st : State) : Bool × State :=
  let st1 := st.call "anime::Item::CheckFolder" [.int id]
  match FindItem st1 id with
  | some item => (env.retBool st1, st1.setItem id { item with folder := env.retStr st1 })
  | none => (env.retBool st1, st1)

/-- Handler of `OpenFolder` (lines 679-690). -/
def OpenFolder (env : Env) (st : State) : Outcome :=
  match GetCurrentItem st with
  | none => .fault st
  | some item =>
    if item.folder = "" then
      let st1 := st.call "MainDialog.ChangeStatus" [.str "Searching for folder..."]
      let r := CheckFolder env st.current_id st1
      if r.1 then
        let st2 := r.2.call "MainDialog.ChangeStatus" [.str "Folder found."]
        match GetCurrentItem st2 with
        | none => .fault st2
        | some item2 => .done (st2.call "Execute" [.str item2.folder])
      else .done (r.2.call "MainDialog.ChangeStatus" [.str "Folder not found."])
    else .done (st.call "Execute" [.str item.folder])

/-- Handler of `SetFolder` (lines 694-700). -/
def SetFolder (env : Env) (st : State) : Outcome :=
  match GetCurrentItem st with
  | none => .fault st
  | some item =>
    let st1 := st.call "BrowseForFolder"
      [.hwnd .MainDialog, .str ("Anime title: " ++ item.title),
       .sym "BIF_NEWDIALOGSTYLE | BIF_NONEWFOLDERBUTTON"]
    if env.retBool st1 then
      let path := env.retStr st1
      let st2 := (st1.call "anime::Item::SetFolder"
        [.int st.current_id, .str path, .flag true]).setItem st.current_id
          { item with folder := path }
      .done (st2.call "anime::Item::CheckEpisodes" [.int st.current_id])
    else .done st1

/-! ## Handlers: filters, announcements, list edits -/

/-- The assignment `flags[index] = !flags[index]` on an array of `n` booleans. -/
def toggleAt {n : Nat} (flags : Fin n → Bool) (index : Int) : Fin n → Bool :=
  fun j => if (j.val : Int) = index then !flags j else flags j

/-- Handler of `FilterReset` (lines 489-494). -/
def FilterReset (env : Env) (st : State) : Outcome :=
  let st1 := st.call "AnimeFilters.Reset" []
  let st2 := st1.call "FilterDialog.RefreshFilters" []
  let st3 := st2.call "MainDialog.edit.SetText" [.str ""]
  if !env.retBool st3 then .done (st3.call "MainDialog.RefreshList" []) else .done st3

/-- Handler of `FilterStatus` (lines 499-505). -/
def FilterStatus (env : Env) (body : String) (st : State) : Outcome :=
  let index := toInt32 (toInt32 (env.ToInt body) - 1)
  if index > -1 ∧ index < 3 then
    let st1 := { st with filter_status := toggleAt st.filter_status index }
    let st2 := st1.call "FilterDialog.RefreshFilters" []
    .done (st2.call "MainDialog.RefreshList" [])
  else .done st

/-- Handler of `FilterType` (lines 510-516). -/
def FilterType (env : Env) (body : String) (st : State) : Outcome :=
  let index := toInt32 (toInt32 (env.ToInt body) - 1)
  if index > -1 ∧ index < 6 then
    let st1 := { st with filter_type := toggleAt st.filter_type index }
    let st2 := st1.call "FilterDialog.RefreshFilters" []
    .done (st2.call "MainDialog.RefreshList" [])
  else .done st

/-- Handlers of `AnnounceToHTTP` .. `AnnounceToTwitter` (lines 522-544), `mode`
being the name of the `ANNOUNCE_TO_…` constant. -/
def AnnounceTo (mode : String) (body : String) (st : State) : Outcome :=
  .done (st.call "Announcer.Do" [.sym mode, .sym "nullptr", .flag (decide (body = "true"))])

/-- Handler of `EditDelete` (lines 563-576). -/
def EditDelete (env : Env) (st : State) : Outcome :=
  let st1 := st.call "win32::TaskDialog" []
  match GetCurrentItem st1 with
  | none => .fault st1
  | some item =>
    let st2 := st1.call "TaskDialog.SetWindowTitle" [.str item.title]
    let st3 := st2.call "TaskDialog.SetMainIcon" [.sym "TD_ICON_INFORMATION"]
    let st4 := st3.call "TaskDialog.SetMainInstruction"
      [.str "Are you sure you want to delete this title from your list?"]
    let st5 := st4.call "TaskDialog.AddButton" [.str "Yes", .sym "IDYES"]
    let st6 := st5.call "TaskDialog.AddButton" [.str "No", .sym "IDNO"]
    let st7 := st6.call "TaskDialog.Show" [.sym "g_hMain"]
    if env.retInt st7 = IDYES then
      let item : EventItem :=
        { anime_id := some st7.current_id, mode := some .HTTP_MAL_AnimeDelete }
      .done (st7.call "EventQueue.Add" [.event item])
    else .done st7

/-- Handler of `EditEpisode` (lines 580-592). -/
def EditEpisode (env : Env) (st0 : State) : Outcome :=
  let st := st0.call "InputDialog" []
  match GetCurrentItem st with
  | none => .fault st
  | some item =>
    let st1 := st.call "InputDialog.SetNumbers"
      [.flag true, .int 0, .int item.episode_count, .int item.my_last_watched_episode]
    let st2 := st1.call "InputDialog.Show"
      [.sym "g_hMain", .str item.title, .str "Please enter episode number for this title:",
       .str (env.ToWstr item.my_last_watched_episode)]
    let text := env.retStr st2
    if env.retInt st2 = IDOK
        ∧ env.IsValidEpisode (toInt32 (env.ToInt text)) 0 item.episode_count = true then
      .done (st2.call "anime::Item::AddToEventQueue" [.int st.current_id, .str text, .flag true])
    else .done st2

/-- Handler of `EditScore` (lines 597-602). -/
def EditScore (env : Env) (body : String) (st : State) : Outcome :=
  let item : EventItem :=
    { anime_id := some st.current_id
      score := some (toInt32 (env.ToInt body))
      mode := some .HTTP_MAL_ScoreUpdate }
  .done (st.call "EventQueue.Add" [.event item])

/-- The two error boxes of `EditStatus` (lines 612-614 and 622-624). -/
def statusMessageBox (text : String) (title : String) (st : State) : State :=
  st.call "MessageBox" [.sym "g_hMain", .str text, .str title, .sym "MB_ICONERROR"]

/-- Lines 631-643 of `EditStatus`: the event is built and queued. -/
def queueStatus (env : Env) (status : Int) (item : Item) (st : State) : State :=
  let st1 :=
    if status = env.MYSTATUS_COMPLETED then setEndDate env st.current_id false true st else st
  let episode : Int :=
    if status = env.MYSTATUS_COMPLETED then
      (if item.episode_count = 0 then -1 else item.episode_count)
    else -1
  let event : EventItem :=
    { anime_id := some st1.current_id
      episode := some episode
      status := some status
      mode := some (if episode = -1 then .HTTP_MAL_StatusUpdate else .HTTP_MAL_AnimeEdit) }
  st1.call "EventQueue.Add" [.event event]

/-- Handler of `EditStatus` (lines 607-643). -/
def EditStatus (env : Env) (body : String) (st : State) : Outcome :=
  let status := toInt32 (env.ToInt body)
  match GetCurrentItem st with
  | none => .fault st
  | some item =>
    match item.airing_status with
    | .STATUS_AIRING =>
      if status = env.MYSTATUS_COMPLETED then
        .done (statusMessageBox "This anime is still airing, you cannot set it as completed."
          item.title st)
      else .done (queueStatus env status item st)
    | .STATUS_FINISHED => .done (queueStatus env status item st)
    | .STATUS_NOTYETAIRED =>
      if status ≠ env.MYSTATUS_PLANTOWATCH then
        .done (statusMessageBox
          "This anime has not aired yet, you cannot set it as anything but Plan to Watch."
          item.title st)
      else .done (queueStatus env status item st)
    | .other _ => .done st

/-- Handler of `EditTags` (lines 648-660). -/
def EditTags (env : Env) (st0 : State) : Outcome :=
  let st := st0.call "InputDialog" []
  match GetCurrentItem st with
  | none => .fault st
  | some item =>
    let st1 := st.call "InputDialog.Show"
      [.sym "g_hMain", .str item.title,
       .str "Please enter tags for this title, separated by a comma:", .str item.my_tags]
    if env.retInt st1 = IDOK then
      let event : EventItem :=
        { anime_id := some st1.current_id
          tags := some (env.retStr st1)
          mode := some .HTTP_MAL_TagUpdate }
      .done (st1.call "EventQueue.Add" [.event event])
    else .done st1

/-- Handler of `EditTitles` (lines 665-673). -/
def EditTitles (env : Env) (st0 : State) : Outcome :=
  let st := st0.call "InputDialog" []
  match GetCurrentItem st with
  | none => .fault st
  | some item =>
    let st1 := st.call "InputDialog.Show"
      [.sym "g_hMain", .str item.title,
       .str "Please enter alternative titles, separated by a semicolon:",
       .str (env.Join item.user_synonyms "; ")]
    if env.retInt st1 = IDOK then
      .done (st1.call "anime::Item::SetUserSynonyms"
        [.int st.current_id, .str (env.retStr st1), .flag true])
    else .done st1

/-! ## Handlers: playback and season data -/

/-- The call `AnimeDatabase.GetCurrentItem()->PlayEpisode(number)`. -/
def playCurrent (number : Int) (st : State) : Outcome :=
  match GetCurrentItem st with
  | none => .fault st
  | some _ => .done (st.call "anime::Item::PlayEpisode" [.int st.current_id, .int number])

/-- Handler of `PlayEpisode` (lines 706-708). -/
def PlayEpisode (env : Env) (body : String) (st : State) : Outcome :=
  playCurrent (toInt32 (env.ToInt body)) st

/-- Handler of `PlayLast` (lines 712-714). -/
def PlayLast (st : State) : Outcome :=
  match GetCurrentItem st with
  | none => .fault st
  | some item => playCurrent item.my_last_watched_episode st

/-- Handler of `PlayNext` (lines 718-723). -/
def PlayNext (st : State) : Outcome :=
  match GetCurrentItem st with
  | none => .fault st
  | some item =>
    if item.episode_count ≠ 1 then playCurrent (toInt32 (item.my_last_watched_episode + 1)) st
    else playCurrent 1 st

/-- The statement `srand(static_cast<unsigned int>(GetTickCount()))` followed by
one call of `rand()`: the draw, between 0 and `RAND_MAX`, and the state afterwards. -/
def seededDraw (env : Env) (st : State) : Int × State :=
  let st1 := st.call "GetTickCount" []
  let st2 := st1.call "srand" [.int (env.retInt st1 % 4294967296)]
  let st3 := st2.call "rand" []
  (env.retInt st3 % (RAND_MAX + 1), st3)

/-- The statements `item->CheckFolder()` and `SearchFileFolder(*item,
item->GetFolder(), episode, false)` for the item stored under `id`: the file
found and the state afterwards. -/
def searchEpisodeFile (env : Env) (id : Int) (episode : Int) (st : State) : String × State :=
  let st1 := (CheckFolder env id st).2
  let folder := match FindItem st1 id with
    | some item => item.folder
    | none => ""
  let st2 := st1.call "SearchFileFolder" [.int id, .str folder, .int episode, .flag false]
  (env.retStr st2, st2)

/-- The loop of lines 733-742, with `n` iterations left. -/
def playRandomLoop (env : Env) (id : Int) (total : Int) : Nat → State → State
  | 0, st => st
  | n + 1, st =>
    let d := seededDraw env st
    let episode := d.1 % total + 1
    let f := searchEpisodeFile env id episode d.2
    if f.1 ≠ "" then f.2.call "Execute" [.str f.1]
    else playRandomLoop env id total n f.2

/-- Handler of `PlayRandom` (lines 727-743). -/
def PlayRandom (env : Env) (body : String) (st : State) : Outcome :=
  let anime_id := toInt32 (env.ToInt body)
  let id := if anime_id ≠ 0 then anime_id else st.current_id
  match FindItem st id with
  | none => .done st
  | some item =>
    let total :=
      if item.episode_count = 0 then toInt32 (item.my_last_watched_episode + 1)
      else item.episode_count
    .done (playRandomLoop env id total total.toNat st)

/-- The loop of lines 748-761, with `n` iterations left. -/
def playRandomAnimeLoop (env : Env) : Nat → State → Outcome
  | 0, st => .done st
  | n + 1, st =>
    let d := seededDraw env st
    let anime_index := toInt32 (d.1 % (d.2.items.length : Int) + 1)
    match FindItem d.2 anime_index with
    | none => .fault d.2
    | some item =>
      let total :=
        if item.episode_count = 0 then toInt32 (item.my_last_watched_episode + 1)
        else item.episode_count
      let st1 := d.2.call "rand" []
      if total = 0 then .fault st1
      else
        let episode_number := (env.retInt st1 % (RAND_MAX + 1)) % total + 1
        let f := searchEpisodeFile env anime_index episode_number st1
        if f.1 ≠ "" then .done (f.2.call "Execute" [.str f.1])
        else playRandomAnimeLoop env n f.2

/-- Handler of `PlayRandomAnime` (lines 747-761). -/
def PlayRandomAnime (env : Env) (st : State) : Outcome :=
  playRandomAnimeLoop env st.items.length st

/-- Handler of `Season_Load` (lines 767-773). -/
def Season_Load (env : Env) (body : String) (st : State) : Outcome :=
  let st1 := st.call "SeasonDatabase.Load" [.str body]
  if env.retBool st1 then
    let st2 := st1.call "SeasonDialog.RefreshData" [.flag false]
    let st3 := st2.call "SeasonDialog.RefreshList" []
    let st4 := st3.call "SeasonDialog.RefreshStatus" []
    .done (st4.call "SeasonDialog.RefreshToolbar" [])
  else .done st1

/-- Handler of `Season_GroupBy` (lines 777-780). -/
def Season_GroupBy (env : Env) (body : String) (st : State) : Outcome :=
  let st1 := { st with season_group_by := toInt32 (env.ToInt body) }
  .done ((st1.call "SeasonDialog.RefreshList" []).call "SeasonDialog.RefreshToolbar" [])

/-- Handler of `Season_SortBy` (lines 784-787). -/
def Season_SortBy (env : Env) (body : String) (st : State) : Outcome :=
  let st1 := { st with season_sort_by := toInt32 (env.ToInt body) }
  .done ((st1.call "SeasonDialog.RefreshList" []).call "SeasonDialog.RefreshToolbar" [])

/-! ## The router -/

/-- The function `ExecuteAction(action, wParam, lParam)` of src/action.cpp.  The
first argument after the environment is the recursion budget: every call of
the router, nested ones included, uses one unit. -/
def ExecuteAction (env : Env) : Nat → String → Int → Int → State → Outcome
  | 0, _, _, _, st => .outOfFuel st
  | fuel + 1, action0, wParam, lParam, st0 =>
    let st := st0.print ("Action :: " ++ action0 ++ "\n")
    let action := (parseAction env.size_bits env.trim_chars action0).1
    let body := (parseAction env.size_bits env.trim_chars action0).2
    if action = "" then .done st
    else if action = "Login" then Login env (ExecuteAction env fuel) st
    else if action = "Logout" then Logout body st
    else if action = "LoginLogout" ∨ action = "ToggleLogin" then
      LoginLogout (ExecuteAction env fuel) st
    else if action = "Synchronize" then Synchronize env (ExecuteAction env fuel) wParam st
    else if action = "ViewPanel" then .done (st.call "mal::ViewPanel" [])
    else if action = "ViewProfile" then .done (st.call "mal::ViewProfile" [])
    else if action = "ViewHistory" then .done (st.call "mal::ViewHistory" [])
    else if action = "Execute" then .done (st.call "Execute" [.str body])
    else if action = "URL" then URL env body st
    else if action = "About" then
      .done (showWindow st .AboutDialog [.sym "IDD_ABOUT", .sym "g_hMain", .flag true])
    else if action = "CheckUpdates" then
      .done (showWindow st .UpdateDialog [.sym "IDD_UPDATE", .sym "g_hMain", .flag true])
    else if action = "Exit" ∨ action = "Quit" then .done (st.call "MainDialog.Destroy" [])
    else if action = "Filter" then
      .done (showWindow st .FilterDialog [.sym "IDD_FILTER", .sym "g_hMain", .flag false])
    else if action = "Info" then Info lParam st
    else if action = "MainDialog" then
      .done (showWindow st .MainDialog [.sym "IDD_MAIN", .sym "NULL", .flag false])
    else if action = "RecognitionTest" then
      .done (showWindow st .RecognitionTest
        [.sym "IDD_TEST_RECOGNITION", .sym "NULL", .flag false])
    else if action = "SeasonBrowser" then
      .done (showWindow st .SeasonDialog [.sym "IDD_SEASON", .sym "nullptr", .flag false])
    else if action = "SetSearchMode" then SetSearchMode env body st
    else if action = "ToggleListSearch" then ToggleListSearch env st
    else if action = "Settings" then Settings lParam st
    else if action = "SaveSettings" then .done (st.call "Settings.Save" [])
    else if action = "SearchAnime" then SearchAnime env (ExecuteAction env fuel) body st
    else if action = "SearchTorrents" then SearchTorrents env (ExecuteAction env fuel) body st
    else if action = "ShowListStats" then ShowListStats env st
    else if action = "Torrents" then
      .done (showWindow st .TorrentDialog [.sym "IDD_TORRENT", .sym "NULL", .flag false])
    else if action = "TorrentAddFilter" then
      .done (showWindow st .FeedFilterDialog
        [.sym "IDD_FEED_FILTER", .int lParam, .flag (decide (wParam ≠ FALSE))])
    else if action = "AddToListAs" then AddToListAs env body lParam st
    else if action = "ViewAnimePage" then
      .done (st.call "mal::ViewAnimePage" [.int (animeIdOf lParam st)])
    else if action = "AddFolder" then AddFolder env (ExecuteAction env fuel) st
    else if action = "CheckEventBuffer" then .done (st.call "EventQueue.Show" [])
    else if action = "CheckEpisodes" then CheckEpisodes env body wParam st
    else if action = "ToggleRecognition" then ToggleRecognition env st
    else if action = "FilterReset" then FilterReset env st
    else if action = "FilterStatus" then FilterStatus env body st
    else if action = "FilterType" then FilterType env body st
    else if action = "AnnounceToHTTP" then AnnounceTo "ANNOUNCE_TO_HTTP" body st
    else if action = "AnnounceToMessenger" then AnnounceTo "ANNOUNCE_TO_MESSENGER" body st
    else if action = "AnnounceToMIRC" then AnnounceTo "ANNOUNCE_TO_MIRC" body st
    else if action = "AnnounceToSkype" then AnnounceTo "ANNOUNCE_TO_SKYPE" body st
    else if action = "AnnounceToTwitter" then AnnounceTo "ANNOUNCE_TO_TWITTER" body st
    else if action = "EditAll" then EditAll lParam st
    else if action = "EditDelete" then EditDelete env st
    else if action = "EditEpisode" then EditEpisode env st
    else if action = "EditScore" then EditScore env body st
    else if action = "EditStatus" then EditStatus env body st
    else if action = "EditTags" then EditTags env st
    else if action = "EditTitles" then EditTitles env st
    else if action = "OpenFolder" then OpenFolder env st
    else if action = "SetFolder" then SetFolder env st
    else if action = "PlayEpisode" then PlayEpisode env body st
    else if action = "PlayLast" then PlayLast st
    else if action = "PlayNext" then PlayNext st
    else if action = "PlayRandom" then PlayRandom env body st
    else if action = "PlayRandomAnime" then PlayRandomAnime env st
    else if action = "Season_Load" then Season_Load env body st
    else if action = "Season_GroupBy" then Season_GroupBy env body st
    else if action = "Season_SortBy" then Season_SortBy env body st
    else if action = "Season_RefreshItemData" then
      .done (st.call "SeasonDialog.RefreshData" [.flag true, .int (toInt32 lParam)])
    else .done st

/-! ## The vocabulary, and a sample environment and state -/

/-- The action names `ExecuteAction` compares the verb with, in the order of
the comparisons. -/
def action_names : List String :=
  ["Login", "Logout", "LoginLogout", "ToggleLogin", "Synchronize", "ViewPanel", "ViewProfile",
   "ViewHistory", "Execute", "URL", "About", "CheckUpdates", "Exit", "Quit", "Filter", "Info",
   "MainDialog", "RecognitionTest", "SeasonBrowser", "SetSearchMode", "ToggleListSearch",
   "Settings", "SaveSettings", "SearchAnime", "SearchTorrents", "ShowListStats", "Torrents",
   "TorrentAddFilter", "AddToListAs", "ViewAnimePage", "AddFolder", "CheckEventBuffer",
   "CheckEpisodes", "ToggleRecognition", "FilterReset", "FilterStatus", "FilterType",
   "AnnounceToHTTP", "AnnounceToMessenger", "AnnounceToMIRC", "AnnounceToSkype",
   "AnnounceToTwitter", "EditAll", "EditDelete", "EditEpisode", "EditScore", "EditStatus",
   "EditTags", "EditTitles", "OpenFolder", "SetFolder", "PlayEpisode", "PlayLast", "PlayNext",
   "PlayRandom", "PlayRandomAnime", "Season_Load", "Season_GroupBy", "Season_SortBy",
   "Season_RefreshItemData"]

/-- The environment trims nothing but whitespace. -/
def Env.trimsWhitespace (env : Env) : Prop :=
  ∀ c ∈ env.trim_chars, c.isWhitespace = true

/-- The value of the leading decimal digits of a string, after `acc`. -/
def digitsValue : List Char → Nat → Nat
  | [], acc => acc
  | c :: cs, acc => if c.isDigit then digitsValue cs (acc * 10 + (c.toNat - 48)) else acc

/-- Modelled from the spec: `ToInt` (declared in string.h, which is not under
src/) gives the integer parsed from the body; here an optional minus sign and
decimal digits, 0 when there are none. -/
def ToIntDec (s : String) : Int :=
  match s.data with
  | '-' :: cs => -(digitsValue cs 0 : Int)
  | cs => (digitsValue cs 0 : Int)

/-- A sample environment: 64-bit `size_t`, `Trim` removing blanks, tabs and
line ends, the user statuses numbered as MyAnimeList numbers them, and
collaborators that answer `false`, 0 and the empty string. -/
def stdEnv : Env where
  size_bits := 64
  trim_chars := [' ', '\t', '\r', '\n']
  ToInt := ToIntDec
  ToWstr := fun n => toString n
  Split := fun s sep => s.splitOn sep
  Join := fun l sep => sep.intercalate l
  EraseChars := fun s chars => String.mk (s.data.filter fun c => !chars.data.contains c)
  Erase := fun s sub => s.replace sub ""
  Replace := fun s what by_ => s.replace what by_
  ReplaceVariables := fun s _ => s
  IsValidEpisode := fun episode watched total =>
    decide (watched ≤ episode) && (decide (total = 0) || decide (episode ≤ total))
  MYSTATUS_WATCHING := 1
  MYSTATUS_COMPLETED := 2
  MYSTATUS_ONHOLD := 3
  MYSTATUS_PLANTOWATCH := 6
  ID_UNKNOWN := -1
  ID_NOTINLIST := 0
  MAL_API_OFFICIAL := 1
  LIST_PROGRESS_AVAILABLEEPS := 2
  PAGE_ACCOUNT := 1
  PAGE_FOLDERS_ROOT := 2
  retBool := fun _ => false
  retInt := fun _ => 0
  retStr := fun _ => ""
  statsText := fun _ _ => ""

/-- A sample state: logged out, nothing in the database, no event list, every
filter flag set, no window open. -/
def emptyState : State where
  debug := []
  calls := []
  logged_in := false
  is_recognition_enabled := true
  items := []
  current_id := -1
  user_name := ""
  event_list := none
  filter_status := fun _ => true
  filter_type := fun _ => true
  filter_text := ""
  search_bar_filter_list := false
  windows := fun _ => false
  mal_user := ""
  mal_password := ""
  mal_api := 0
  folders_root := []
  folders_watch_enabled := false
  progress_mode := 0
  current_episode_anime_id := -1
  season_group_by := 0
  season_sort_by := 0

/-- A sample item: a twelve-episode title of which five episodes are watched. -/
def sampleItem (airing : AiringStatus) : Item where
  title := "Sample"
  episode_count := 12
  my_last_watched_episode := 5
  my_last_watched_episode_stored := 5
  airing_status := airing
  folder := ""
  in_list := true
  my_status := 1
  my_tags := ""
  user_synonyms := []

/-- A sample state whose database holds `sampleItem` under id 7 as the current item. -/
def sampleState (airing : AiringStatus) : State :=
  { emptyState with items := [(7, sampleItem airing)], current_id := 7 }

/-- The state of an empty database, logged out, with one add-to-list event pending. -/
def pendingAddState : State :=
  { emptyState with
    event_list := some [{ anime_id := some 7, mode := some .HTTP_MAL_AnimeAdd }] }

/-- The state of a database holding `sampleItem`, logged out, with one
add-to-list event pending. -/
def pendingAddListed : State :=
  { sampleState .STATUS_FINISHED with
    event_list := some [{ anime_id := some 7, mode := some .HTTP_MAL_AnimeAdd }] }

/-- The window-opening verbs, each with the window it shows. -/
def window_verbs : List (String × Window) :=
  [("About", .AboutDialog), ("CheckUpdates", .UpdateDialog), ("Filter", .FilterDialog),
   ("Info", .AnimeDialog), ("MainDialog", .MainDialog), ("RecognitionTest", .RecognitionTest),
   ("SeasonBrowser", .SeasonDialog), ("Settings", .SettingsDialog), ("Torrents", .TorrentDialog),
   ("TorrentAddFilter", .FeedFilterDialog), ("EditAll", .AnimeDialog)]

/-- The announcement verbs, each with the name of the channel constant it passes. -/
def announce_verbs : List (String × String) :=
  [("AnnounceToHTTP", "ANNOUNCE_TO_HTTP"), ("AnnounceToMessenger", "ANNOUNCE_TO_MESSENGER"),
   ("AnnounceToMIRC", "ANNOUNCE_TO_MIRC"), ("AnnounceToSkype", "ANNOUNCE_TO_SKYPE"),
   ("AnnounceToTwitter", "ANNOUNCE_TO_TWITTER")]

/-- The recorded calls of a given name, in order. -/
def callsNamed (name : String) (calls : List Call) : List Call :=
  calls.filter (fun c => decide (c.name = name))

/-- A sample item with a given airing status, episode count and last watched episode. -/
def itemWith (airing : AiringStatus) (episode_count last_watched : Int) : Item :=
  { sampleItem airing with
    episode_count := episode_count
    my_last_watched_episode := last_watched
    my_last_watched_episode_stored := last_watched }

/-- A sample state whose database holds `item` under id 7 as the current item. -/
def stateWith (item : Item) : State :=
  { emptyState with items := [(7, item)], current_id := 7 }

/-- The state of an empty database, logged out, with two events pending: a score
update first and an add-to-list event after it. -/
def pendingAddSecond : State :=
  { emptyState with
    event_list := some
      [{ anime_id := some 7, score := some 8, mode := some .HTTP_MAL_ScoreUpdate },
       { anime_id := some 9, mode := some .HTTP_MAL_AnimeAdd }] }

/-- One retry round of `PlayRandom`, seen from outside: from `prev` to `s` the calls grow by
the tick count, the seed, the draw, the folder check and one file search, for an episode
between 1 and `total`. -/
def searchRound (id total : Int) (prev s : State) : Prop :=
  ∃ (seed : Int) (folder : String) (episode : Int),
    s.calls = prev.calls ++
      [⟨"GetTickCount", []⟩, ⟨"srand", [.int seed]⟩, ⟨"rand", []⟩,
       ⟨"anime::Item::CheckFolder", [.int id]⟩,
       ⟨"SearchFileFolder", [.int id, .str folder, .int episode, .flag false]⟩]
    ∧ 1 ≤ episode ∧ episode ≤ total

/-- A sample environment like `stdEnv` in which the second file search of a
run finds the file `episode.mkv` and every other one finds nothing. -/
def findingEnv : Env :=
  { stdEnv with
    retStr := fun st =>
      if (callsNamed "SearchFileFolder" st.calls).length = 2 then "episode.mkv" else "" }

/-! ## The parser -/

/-- A character that does not occur has no first index. -/
theorem firstIndex_none (c : Char) : ∀ s : List Char, c ∉ s → firstIndex c s = none := by
  intro s
  induction s with
  | nil => intro _; rfl
  | cons x xs ih =>
    intro h
    have hx : x ≠ c := fun e => h (by simp [e])
    have hxs : c ∉ xs := fun e => h (by simp [e])
    simp [firstIndex, hx, ih hxs]

/-- A character that does not occur has no last index. -/
theorem lastIndex_none (c : Char) : ∀ s : List Char, c ∉ s → lastIndex c s = none := by
  intro s
  induction s with
  | nil => intro _; rfl
  | cons x xs ih =>
    intro h
    have hx : x ≠ c := fun e => h (by simp [e])
    have hxs : c ∉ xs := fun e => h (by simp [e])
    simp [lastIndex, hx, ih hxs]

/-- The index `p` holds `c` and no earlier one does: `p` is the first index of `c`. -/
theorem firstIndex_of_get (c : Char) :
    ∀ (s : List Char) (p : Nat), s[p]? = some c → c ∉ s.take p → firstIndex c s = some p := by
  intro s
  induction s with
  | nil => intro p h; simp at h
  | cons x xs ih =>
    intro p hp hfirst
    cases p with
    | zero =>
      simp at hp
      simp [firstIndex, hp]
    | succ p =>
      simp at hp
      have hx : x ≠ c := fun e => hfirst (by simp [e])
      have hxs : c ∉ xs.take p := fun e => hfirst (by simp [e])
      simp [firstIndex, hx, ih p hp hxs]

/-- The index `q` holds `c` and no later one does: `q` is the last index of `c`. -/
theorem lastIndex_of_get (c : Char) :
    ∀ (s : List Char) (q : Nat), s[q]? = some c → c ∉ s.drop (q + 1) →
      lastIndex c s = some q := by
  intro s
  induction s with
  | nil => intro q h; simp at h
  | cons x xs ih =>
    intro q hq hlast
    cases q with
    | zero =>
      simp at hq
      simp at hlast
      simp [lastIndex, hq, lastIndex_none c xs hlast]
    | succ q =>
      simp at hq
      simp at hlast
      simp [lastIndex, ih q hq hlast]

/-- The last index of `c` holds `c`. -/
theorem lastIndex_get (c : Char) :
    ∀ (s : List Char) (q : Nat), lastIndex c s = some q → s[q]? = some c := by
  intro s
  induction s with
  | nil => intro q h; simp [lastIndex] at h
  | cons x xs ih =>
    intro q h
    unfold lastIndex at h
    cases hxs : lastIndex c xs with
    | some i =>
      rw [hxs] at h
      simp at h
      subst h
      simpa using ih i hxs
    | none =>
      rw [hxs] at h
      by_cases hx : x = c
      · simp [hx] at h
        subst h
        simp [hx]
      · simp [hx] at h

/-- An index that holds a character lies inside the string. -/
theorem lt_length_of_get {c : Char} {s : List Char} {p : Nat} (h : s[p]? = some c) :
    p < s.length := by
  by_contra hn
  have : s[p]? = none := List.getElem?_eq_none (by omega)
  rw [this] at h
  cases h

/-- A character held at index `q` occurs in what is left after dropping `n ≤ q` characters. -/
theorem mem_drop_of_get {c : Char} {s : List Char} {q n : Nat} (h : s[q]? = some c)
    (hn : n ≤ q) : c ∈ s.drop n := by
  have h2 : (s.drop n)[q - n]? = some c := by
    rw [List.getElem?_drop]
    rw [show n + (q - n) = q by omega]
    exact h
  exact List.getElem?_mem h2

/-- Trimming the empty string gives the empty string. -/
theorem Trim_empty (tc : List Char) : Trim tc "" = "" := by
  simp [Trim]

/-- Without a `(` the parser trims the whole string and leaves the body empty. -/
theorem parseAction_of_no_paren (w : Nat) (tc : List Char) (s : String) (h : '(' ∉ s.data) :
    parseAction w tc s = (Trim tc s, "") := by
  simp [parseAction, find, firstIndex_none _ _ h, Trim_empty]

/-- C1: for an action string whose first `(` is at index `p` and whose last `)`
is at index `q`, with `p < q`, the parser gives verb = trim of the characters
before index `p` and body = trim of the characters strictly between index `p`
and index `q`, the LAST `)` of the string (the string being shorter than
`2 ^ w` characters, as every string of a `w`-bit program is). -/
theorem parse_verb_and_body (w : Nat) (tc : List Char) (s : String) (p q : Nat)
    (hlen : s.data.length < 2 ^ w)
    (hp : s.data[p]? = some '(') (hfirst : '(' ∉ s.data.take p)
    (hq : s.data[q]? = some ')') (hlast : ')' ∉ s.data.drop (q + 1))
    (hpq : p < q) :
    parseAction w tc s
      = (Trim tc (String.mk (s.data.take p)),
         Trim tc (String.mk ((s.data.take q).drop (p + 1)))) := by
  have hq1 := lt_length_of_get hq
  have h1 : find w s '(' = p := by simp [find, firstIndex_of_get _ _ _ hp hfirst]
  have h2 : find_last_of w s ')' = q := by simp [find_last_of, lastIndex_of_get _ _ _ hq hlast]
  have h3 : p ≠ npos w := by unfold npos; omega
  have h4 : size_add w p 1 = p + 1 := by
    unfold size_add; exact Nat.mod_eq_of_lt (by omega)
  have h5 : size_sub w q (p + 1) = q - (p + 1) := by
    unfold size_sub
    rw [Nat.mod_eq_of_lt (show q < 2 ^ w by omega), Nat.mod_eq_of_lt (show p + 1 < 2 ^ w by omega)]
    have e : q + 2 ^ w - (p + 1) = (q - (p + 1)) + 2 ^ w := by omega
    rw [e, Nat.add_mod_right]
    exact Nat.mod_eq_of_lt (by omega)
  simp only [parseAction, h1, h2, h3, h4, h5, ne_eq, not_false_eq_true, if_true, substr, resize,
    List.drop_take]

/-- C1 at `Settings(0)`, at `URL(a(b)c)` and at `Execute( a)(b )`: the verbs are
`Settings`, `URL` and `Execute`, the bodies `0`, `a(b)c` and `a)(b`: the body
runs to the last `)`, past the `)` that matches the first `(`. -/
theorem parse_verb_and_body_witness :
    parseAction stdEnv.size_bits stdEnv.trim_chars "Settings(0)" = ("Settings", "0")
    ∧ parseAction stdEnv.size_bits stdEnv.trim_chars "URL(a(b)c)" = ("URL", "a(b)c")
    ∧ parseAction stdEnv.size_bits stdEnv.trim_chars "Execute( a)(b )" = ("Execute", "a)(b") :=
  ⟨(parse_verb_and_body stdEnv.size_bits stdEnv.trim_chars "Settings(0)" 8 10
      (by decide) (by decide) (by decide) (by decide) (by decide) (by decide)).trans (by decide),
   (parse_verb_and_body stdEnv.size_bits stdEnv.trim_chars "URL(a(b)c)" 3 9
      (by decide) (by decide) (by decide) (by decide) (by decide) (by decide)).trans (by decide),
   (parse_verb_and_body stdEnv.size_bits stdEnv.trim_chars "Execute( a)(b )" 7 14
      (by decide) (by decide) (by decide) (by decide) (by decide) (by decide)).trans (by decide)⟩

/-- C2: for an action string that contains no `(`, the parser gives verb = the
trimmed string and body = the empty string. -/
theorem parse_without_paren (w : Nat) (tc : List Char) (s : String) (h : '(' ∉ s.data) :
    parseAction w tc s = (Trim tc s, "") :=
  parseAction_of_no_paren w tc s h

/-- C2 at `About` and at `  Login  `: the verbs are `About` and `Login`, the
bodies are empty. -/
theorem parse_without_paren_witness :
    parseAction stdEnv.size_bits stdEnv.trim_chars "About" = ("About", "")
    ∧ parseAction stdEnv.size_bits stdEnv.trim_chars "  Login  " = ("Login", "") :=
  ⟨(parse_without_paren stdEnv.size_bits stdEnv.trim_chars "About" (by decide)).trans
      (by decide),
   (parse_without_paren stdEnv.size_bits stdEnv.trim_chars "  Login  " (by decide)).trans
      (by decide)⟩

/-- C3 fails as stated: `Execute(foo` has no `)` at all and `)x(foo` has none
after its `(` at index 2, yet the parsed body of both is `foo`, not the empty
string. -/
theorem unclosed_paren_body_not_empty :
    ')' ∉ ("Execute(foo" : String).data
    ∧ (parseAction stdEnv.size_bits stdEnv.trim_chars "Execute(foo").2 = "foo"
    ∧ (")x(foo" : String).data[2]? = some '('
    ∧ ')' ∉ (")x(foo" : String).data.drop 3
    ∧ (parseAction stdEnv.size_bits stdEnv.trim_chars ")x(foo").2 = "foo" := by
  decide

/-- C3 as amended: for an action string with no `(` at all the parsed body is
empty; for one whose first `(` is at index `p` and that has no `)` after it,
the parsed body is the trimmed text from index `p + 1` to the end of the
string (the string being shorter than `2 ^ w` characters). -/
theorem body_without_closing_paren (w : Nat) (tc : List Char) (s : String)
    (hlen : s.data.length < 2 ^ w) :
    ('(' ∉ s.data → (parseAction w tc s).2 = "")
    ∧ (∀ p : Nat, s.data[p]? = some '(' → '(' ∉ s.data.take p → ')' ∉ s.data.drop (p + 1) →
        (parseAction w tc s).2 = Trim tc (String.mk (s.data.drop (p + 1)))) := by
  refine ⟨fun h => ?_, fun p hp hfirst hlast => ?_⟩
  · rw [parseAction_of_no_paren w tc s h]
  · have hp1 := lt_length_of_get hp
    have h1 : find w s '(' = p := by simp [find, firstIndex_of_get _ _ _ hp hfirst]
    have h3 : p ≠ npos w := by unfold npos; omega
    have h4 : size_add w p 1 = p + 1 := by
      unfold size_add; exact Nat.mod_eq_of_lt (by omega)
    have h5 : s.data.length - (p + 1) ≤ size_sub w (find_last_of w s ')') (p + 1) := by
      unfold size_sub find_last_of
      rw [Nat.mod_eq_of_lt (show p + 1 < 2 ^ w by omega)]
      cases hq : lastIndex ')' s.data with
      | none =>
        simp only [Option.getD_none, npos]
        rw [Nat.mod_eq_of_lt (show 2 ^ w - 1 < 2 ^ w by omega)]
        have e : 2 ^ w - 1 + 2 ^ w - (p + 1) = (2 ^ w - 1 - (p + 1)) + 2 ^ w := by omega
        rw [e, Nat.add_mod_right, Nat.mod_eq_of_lt (by omega)]
        omega
      | some q =>
        simp only [Option.getD_some]
        have hq1 := lastIndex_get _ _ _ hq
        have hq2 : q < p + 1 := by
          by_contra hn
          exact hlast (mem_drop_of_get hq1 (by omega))
        rw [Nat.mod_eq_of_lt (show q < 2 ^ w by omega)]
        rw [Nat.mod_eq_of_lt (by omega)]
        omega
    simp only [parseAction, h1, h3, h4, ne_eq, not_false_eq_true, if_true, substr]
    rw [List.take_of_length_le (by simpa using h5)]

/-- C3 as amended, at `About` (no `(`: empty body) and at `Execute(foo` (the `(`
at index 7, no `)`: body `foo`). -/
theorem body_without_closing_paren_witness :
    (parseAction stdEnv.size_bits stdEnv.trim_chars "About").2 = ""
    ∧ (parseAction stdEnv.size_bits stdEnv.trim_chars "Execute(foo").2
        = Trim stdEnv.trim_chars "foo" :=
  ⟨(body_without_closing_paren stdEnv.size_bits stdEnv.trim_chars "About" (by decide)).1
      (by decide),
   (body_without_closing_paren stdEnv.size_bits stdEnv.trim_chars "Execute(foo" (by decide)).2 7
      (by decide) (by decide) (by decide)⟩

/-! ## Empty and unknown verbs -/

/-- C4: for every action string whose parsed verb is empty, and for every
wParam, lParam and state, `ExecuteAction` returns with the state unchanged
apart from the line `debug::Print` wrote: no handler runs. -/
theorem empty_verb_no_action (env : Env) (fuel : Nat) (action : String) (wParam lParam : Int)
    (st : State) (h : (parseAction env.size_bits env.trim_chars action).1 = "") :
    ExecuteAction env (fuel + 1) action wParam lParam st
      = .done (st.print ("Action :: " ++ action ++ "\n")) := by
  simp [ExecuteAction, h]

/-- C4 at the empty string, at a string of blanks and at `(0)`. -/
theorem empty_verb_no_action_witness :
    ExecuteAction stdEnv 1 "" 3 4 (sampleState .STATUS_AIRING)
      = .done ((sampleState .STATUS_AIRING).print ("Action :: " ++ "" ++ "\n"))
    ∧ ExecuteAction stdEnv 1 "   " 3 4 (sampleState .STATUS_AIRING)
      = .done ((sampleState .STATUS_AIRING).print ("Action :: " ++ "   " ++ "\n"))
    ∧ ExecuteAction stdEnv 1 "(0)" 3 4 (sampleState .STATUS_AIRING)
      = .done ((sampleState .STATUS_AIRING).print ("Action :: " ++ "(0)" ++ "\n")) :=
  ⟨empty_verb_no_action stdEnv 0 "" 3 4 _ (by decide),
   empty_verb_no_action stdEnv 0 "   " 3 4 _ (by decide),
   empty_verb_no_action stdEnv 0 "(0)" 3 4 _ (by decide)⟩

/-- C5: dispatch is by exact, case-sensitive equality of the trimmed verb with
the action names: for every action string whose parsed verb is none of them,
and for every body, wParam, lParam and state, `ExecuteAction` returns with the
state unchanged apart from the line `debug::Print` wrote: no handler runs. -/
theorem unknown_verb_no_action (env : Env) (fuel : Nat) (action : String) (wParam lParam : Int)
    (st : State) (h : (parseAction env.size_bits env.trim_chars action).1 ∉ action_names) :
    ExecuteAction env (fuel + 1) action wParam lParam st
      = .done (st.print ("Action :: " ++ action ++ "\n")) := by
  simp only [action_names, List.mem_cons, List.mem_singleton, not_or, List.mem_nil_iff,
    not_false_eq_true, and_true] at h
  simp [ExecuteAction, h]

/-- C5 at `login`, at `ABOUT(x)` and at `Sync`: case variants and other strings
that are not action names run no handler. -/
theorem unknown_verb_no_action_witness :
    ExecuteAction stdEnv 1 "login" 0 0 (sampleState .STATUS_AIRING)
      = .done ((sampleState .STATUS_AIRING).print ("Action :: " ++ "login" ++ "\n"))
    ∧ ExecuteAction stdEnv 1 "ABOUT(x)" 1 2 (sampleState .STATUS_AIRING)
      = .done ((sampleState .STATUS_AIRING).print ("Action :: " ++ "ABOUT(x)" ++ "\n"))
    ∧ ExecuteAction stdEnv 1 "Sync" 1 2 pendingAddState
      = .done (pendingAddState.print ("Action :: " ++ "Sync" ++ "\n")) :=
  ⟨unknown_verb_no_action stdEnv 0 "login" 0 0 _ (by decide),
   unknown_verb_no_action stdEnv 0 "ABOUT(x)" 1 2 _ (by decide),
   unknown_verb_no_action stdEnv 0 "Sync" 1 2 _ (by decide)⟩

/-! ## FilterStatus and EditStatus -/

/-- A value inside the 32-bit range is left as it is. -/
theorem toInt32_of_range {x : Int} (h1 : -2147483648 ≤ x) (h2 : x < 2147483648) :
    toInt32 x = x := by
  unfold toInt32; omega

/-- The result of `toInt32` lies in the 32-bit range. -/
theorem toInt32_range (x : Int) : -2147483648 ≤ toInt32 x ∧ toInt32 x < 2147483648 := by
  unfold toInt32; omega

/-- C6: with `n` the integer parsed from the body, `FilterStatus(n)` negates the
status filter flag at index `n - 1`, leaves every other status flag and every
other field (the type flags among them) as they were and refreshes the filter
dialog and the list when `1 ≤ n ≤ 3`; when `n < 1` or `3 < n` it changes
nothing and calls nothing (only the line of `debug::Print` is added). -/
theorem FilterStatus_toggles (env : Env) (fuel : Nat) (action body : String)
    (wParam lParam : Int) (st : State)
    (hparse : parseAction env.size_bits env.trim_chars action = ("FilterStatus", body)) :
    (1 ≤ toInt32 (env.ToInt body) ∧ toInt32 (env.ToInt body) ≤ 3 →
      ExecuteAction env (fuel + 1) action wParam lParam st
        = .done { st with
            debug := st.debug ++ ["Action :: " ++ action ++ "\n"]
            filter_status := fun j =>
              if (j.val : Int) = toInt32 (env.ToInt body) - 1 then !st.filter_status j
              else st.filter_status j
            calls := st.calls ++
              [⟨"FilterDialog.RefreshFilters", []⟩, ⟨"MainDialog.RefreshList", []⟩] })
    ∧ (toInt32 (env.ToInt body) < 1 ∨ 3 < toInt32 (env.ToInt body) →
      ExecuteAction env (fuel + 1) action wParam lParam st
        = .done (st.print ("Action :: " ++ action ++ "\n"))) := by
  have hr := toInt32_range (env.ToInt body)
  constructor
  · intro h
    have e : toInt32 (toInt32 (env.ToInt body) - 1) = toInt32 (env.ToInt body) - 1 :=
      toInt32_of_range (by omega) (by omega)
    have c : toInt32 (env.ToInt body) - 1 > -1 ∧ toInt32 (env.ToInt body) - 1 < 3 := by omega
    simp [ExecuteAction, hparse, FilterStatus, e, c, State.call, State.print]
    rfl
  · intro h
    have c : ¬ (toInt32 (toInt32 (env.ToInt body) - 1) > -1
        ∧ toInt32 (toInt32 (env.ToInt body) - 1) < 3) := by
      generalize toInt32 (env.ToInt body) = n at *
      unfold toInt32
      omega
    simp [ExecuteAction, hparse, FilterStatus, c]

/-- C6 at `FilterStatus(2)`, which negates the flag at index 1, and at
`FilterStatus(0)` and `FilterStatus(4)`, which change nothing. -/
theorem FilterStatus_toggles_witness :
    ExecuteAction stdEnv 1 "FilterStatus(2)" 0 0 emptyState
      = .done { emptyState with
          debug := emptyState.debug ++ ["Action :: " ++ "FilterStatus(2)" ++ "\n"]
          filter_status := fun j =>
            if (j.val : Int) = toInt32 (stdEnv.ToInt "2") - 1 then !emptyState.filter_status j
            else emptyState.filter_status j
          calls := emptyState.calls ++
            [⟨"FilterDialog.RefreshFilters", []⟩, ⟨"MainDialog.RefreshList", []⟩] }
    ∧ ExecuteAction stdEnv 1 "FilterStatus(0)" 0 0 emptyState
      = .done (emptyState.print ("Action :: " ++ "FilterStatus(0)" ++ "\n"))
    ∧ ExecuteAction stdEnv 1 "FilterStatus(4)" 0 0 emptyState
      = .done (emptyState.print ("Action :: " ++ "FilterStatus(4)" ++ "\n")) :=
  ⟨(FilterStatus_toggles stdEnv 0 "FilterStatus(2)" "2" 0 0 emptyState (by decide)).1
      (by decide),
   (FilterStatus_toggles stdEnv 0 "FilterStatus(0)" "0" 0 0 emptyState (by decide)).2
      (by decide),
   (FilterStatus_toggles stdEnv 0 "FilterStatus(4)" "4" 0 0 emptyState (by decide)).2
      (by decide)⟩

/-- The two rejections of the handler of `EditStatus`. -/
theorem EditStatus_reject_of (env : Env) (body : String) (st : State) (item : Item)
    (hitem : GetCurrentItem st = some item)
    (hbad : (item.airing_status = .STATUS_AIRING
              ∧ toInt32 (env.ToInt body) = env.MYSTATUS_COMPLETED)
          ∨ (item.airing_status = .STATUS_NOTYETAIRED
              ∧ toInt32 (env.ToInt body) ≠ env.MYSTATUS_PLANTOWATCH)) :
    ∃ text : String,
      EditStatus env body st
        = .done (st.call "MessageBox"
            [.sym "g_hMain", .str text, .str item.title, .sym "MB_ICONERROR"]) := by
  rcases hbad with ⟨ha, hs⟩ | ⟨ha, hs⟩
  · refine ⟨"This anime is still airing, you cannot set it as completed.", ?_⟩
    simp only [EditStatus, hitem, ha, hs, statusMessageBox, if_true]
  · refine ⟨"This anime has not aired yet, you cannot set it as anything but Plan to Watch.", ?_⟩
    simp only [EditStatus, hitem, ha, statusMessageBox, ne_eq, hs, not_false_eq_true, if_true]

/-- C7: when the current item is still airing and the target status is
Completed, or the current item has not aired yet and the target status is not
Plan to Watch, `EditStatus` returns after one `MessageBox` call (an error box
titled with the item): nothing else is called, so no event is queued, and no
field of the state, the items of the database among them, is changed (only the
line of `debug::Print` is added). -/
theorem EditStatus_rejects (env : Env) (fuel : Nat) (action body : String)
    (wParam lParam : Int) (st : State) (item : Item)
    (hparse : parseAction env.size_bits env.trim_chars action = ("EditStatus", body))
    (hitem : GetCurrentItem st = some item)
    (hbad : (item.airing_status = .STATUS_AIRING
              ∧ toInt32 (env.ToInt body) = env.MYSTATUS_COMPLETED)
          ∨ (item.airing_status = .STATUS_NOTYETAIRED
              ∧ toInt32 (env.ToInt body) ≠ env.MYSTATUS_PLANTOWATCH)) :
    ∃ text : String,
      ExecuteAction env (fuel + 1) action wParam lParam st
        = .done { st with
            debug := st.debug ++ ["Action :: " ++ action ++ "\n"]
            calls := st.calls ++
              [⟨"MessageBox",
                [.sym "g_hMain", .str text, .str item.title, .sym "MB_ICONERROR"]⟩] } := by
  have hitem2 : GetCurrentItem (st.print ("Action :: " ++ action ++ "\n")) = some item := hitem
  obtain ⟨text, ht⟩ := EditStatus_reject_of env body _ item hitem2 hbad
  refine ⟨text, ?_⟩
  have e : ExecuteAction env (fuel + 1) action wParam lParam st
      = EditStatus env body (st.print ("Action :: " ++ action ++ "\n")) := by
    simp [ExecuteAction, hparse]
  rw [e, ht]
  rfl

/-- C7 at `EditStatus(2)` (Completed) for an item that is still airing. -/
theorem EditStatus_rejects_witness :
    ∃ text : String,
      ExecuteAction stdEnv 1 "EditStatus(2)" 0 0 (sampleState .STATUS_AIRING)
        = .done { sampleState .STATUS_AIRING with
            debug := (sampleState .STATUS_AIRING).debug
              ++ ["Action :: " ++ "EditStatus(2)" ++ "\n"]
            calls := (sampleState .STATUS_AIRING).calls ++
              [⟨"MessageBox",
                [.sym "g_hMain", .str text, .str (sampleItem .STATUS_AIRING).title,
                 .sym "MB_ICONERROR"]⟩] } :=
  EditStatus_rejects stdEnv 0 "EditStatus(2)" "2" 0 0 (sampleState .STATUS_AIRING)
    (sampleItem .STATUS_AIRING) (by decide) (by decide) (Or.inl ⟨rfl, by decide⟩)

/-! ## Login, Logout and Synchronize -/

/-- C8: `LoginLogout` and its alias `ToggleLogin`, whatever their body, wParam
and lParam, do what the call `ExecuteAction("Login")` (parameters 0, 0) does
when the logged-in flag is false and what the call `ExecuteAction("Logout")`
(empty body, parameters 0, 0) does when it is true, from the state they were
called in; their only own effect is the line `debug::Print` wrote before. -/
theorem LoginLogout_dispatch (env : Env) (fuel : Nat) (action body : String)
    (wParam lParam : Int) (st : State)
    (hparse : parseAction env.size_bits env.trim_chars action = ("LoginLogout", body)
      ∨ parseAction env.size_bits env.trim_chars action = ("ToggleLogin", body)) :
    (st.logged_in = false →
      ExecuteAction env (fuel + 1) action wParam lParam st
        = ExecuteAction env fuel "Login" 0 0 (st.print ("Action :: " ++ action ++ "\n")))
    ∧ (st.logged_in = true →
      ExecuteAction env (fuel + 1) action wParam lParam st
        = ExecuteAction env fuel "Logout" 0 0 (st.print ("Action :: " ++ action ++ "\n"))) := by
  rcases hparse with h | h
  · constructor <;> intro hl <;>
      simp [ExecuteAction, h, LoginLogout, State.print, hl]
  · constructor <;> intro hl <;>
      simp [ExecuteAction, h, LoginLogout, State.print, hl]

/-- C8 at `LoginLogout`, logged out, and at `ToggleLogin(x)`, logged in. -/
theorem LoginLogout_dispatch_witness :
    ExecuteAction stdEnv 3 "LoginLogout" 5 6 (sampleState .STATUS_AIRING)
      = ExecuteAction stdEnv 2 "Login" 0 0
          ((sampleState .STATUS_AIRING).print ("Action :: " ++ "LoginLogout" ++ "\n"))
    ∧ ExecuteAction stdEnv 3 "ToggleLogin(x)" 5 6 { emptyState with logged_in := true }
      = ExecuteAction stdEnv 2 "Logout" 0 0
          ({ emptyState with logged_in := true }.print
            ("Action :: " ++ "ToggleLogin(x)" ++ "\n")) :=
  ⟨(LoginLogout_dispatch stdEnv 2 "LoginLogout" "" 5 6 (sampleState .STATUS_AIRING)
      (Or.inl (by decide))).1 rfl,
   (LoginLogout_dispatch stdEnv 2 "ToggleLogin(x)" "x" 5 6 { emptyState with logged_in := true }
      (Or.inr (by decide))).2 rfl⟩

/-- A character that is not whitespace is not trimmed. -/
theorem not_mem_of_trimsWhitespace {env : Env} (hws : env.trimsWhitespace) {c : Char}
    (hc : c.isWhitespace = false) : c ∉ env.trim_chars := by
  intro h
  have := hws c h
  rw [hc] at this
  cases this

/-- The literal `Login` parses as the verb `Login` with an empty body. -/
theorem parse_Login (env : Env) (hws : env.trimsWhitespace) :
    parseAction env.size_bits env.trim_chars "Login" = ("Login", "") := by
  rw [parseAction_of_no_paren _ _ _ (by decide)]
  have h1 : 'L' ∉ env.trim_chars := not_mem_of_trimsWhitespace hws (by decide)
  have h2 : 'n' ∉ env.trim_chars := not_mem_of_trimsWhitespace hws (by decide)
  have e : ("Login" : String) = String.mk ['L', 'o', 'g', 'i', 'n'] := by decide
  rw [e]
  simp [Trim, List.dropWhile, h1, h2]

/-- The literal `Synchronize` parses as the verb `Synchronize` with an empty body. -/
theorem parse_Synchronize (env : Env) (hws : env.trimsWhitespace) :
    parseAction env.size_bits env.trim_chars "Synchronize" = ("Synchronize", "") := by
  rw [parseAction_of_no_paren _ _ _ (by decide)]
  have h1 : 'S' ∉ env.trim_chars := not_mem_of_trimsWhitespace hws (by decide)
  have h2 : 'e' ∉ env.trim_chars := not_mem_of_trimsWhitespace hws (by decide)
  have e : ("Synchronize" : String)
      = String.mk ['S', 'y', 'n', 'c', 'h', 'r', 'o', 'n', 'i', 'z', 'e'] := by decide
  rw [e]
  simp [Trim, List.dropWhile, h1, h2]

/-- The sample environment trims nothing but whitespace. -/
theorem stdEnv_trimsWhitespace : stdEnv.trimsWhitespace := by
  intro c hc
  simp [stdEnv] at hc
  rcases hc with h | h | h | h <;> subst h <;> decide

/-- The router on the literal `Login`: the debug line, then the handler. -/
theorem ExecuteAction_Login_eq (env : Env) (hws : env.trimsWhitespace) (fuel : Nat)
    (wParam lParam : Int) (st : State) :
    ExecuteAction env (fuel + 1) "Login" wParam lParam st
      = Login env (ExecuteAction env fuel) (st.print "Action :: Login\n") := by
  have h := parse_Login env hws
  simp only [ExecuteAction, h]
  simp

/-- The router on a string whose verb is `Synchronize`: the debug line, then the handler. -/
theorem ExecuteAction_Synchronize_eq (env : Env) (fuel : Nat) (action body : String)
    (wParam lParam : Int) (st : State)
    (hparse : parseAction env.size_bits env.trim_chars action = ("Synchronize", body)) :
    ExecuteAction env (fuel + 1) action wParam lParam st
      = Synchronize env (ExecuteAction env fuel) wParam
          (st.print ("Action :: " ++ action ++ "\n")) := by
  simp [ExecuteAction, hparse]

/-- With an empty database `Login` hands over to `Synchronize`. -/
theorem Login_of_empty (env : Env) (self : String → Int → Int → State → Outcome) (st : State)
    (hi : st.items = []) : Login env self st = self "Synchronize" TRUE 0 st := by
  simp [Login, hi]

/-- With a database that is not empty `Login` logs in and returns. -/
theorem Login_of_nonempty (env : Env) (self : String → Int → Int → State → Outcome)
    (st : State) (hi : st.items ≠ []) :
    Login env self st
      = .done (
        let st1 := st.call "MainDialog.ChangeStatus" [.str "Logging in..."]
        let st2 := st1.call "mal::Login" []
        let st3 := st2.call "MainDialog.EnableInput" [.flag (!env.retBool st2)]
        if !env.retBool st2 then st3.call "MainDialog.ChangeStatus" [] else st3) := by
  have : st.items.length > 0 := List.length_pos.mpr hi
  simp [Login, this]

/-- Logged in with a queue that is not empty, `Synchronize` checks the queue and returns. -/
theorem Synchronize_of_checking (env : Env) (self : String → Int → Int → State → Outcome)
    (wParam : Int) (st : State) (h : st.logged_in = true ∧ 0 < GetItemCount st) :
    Synchronize env self wParam st = .done (st.call "EventQueue.Check" []) := by
  have hc : (st.logged_in && decide (GetItemCount st > 0)) = true := by
    simpa using h
  simp only [Synchronize, hc, if_true]

/-- Otherwise, with an add-to-list event in the list, `Synchronize` hands over to `Login`. -/
theorem Synchronize_of_pending (env : Env) (self : String → Int → Int → State → Outcome)
    (wParam : Int) (st : State) (l : List EventItem)
    (hnot : ¬ (st.logged_in = true ∧ 0 < GetItemCount st))
    (hev : st.event_list = some l) (hadd : hasAnimeAdd l = true) :
    Synchronize env self wParam st = self "Login" 0 0 st := by
  have hc : (st.logged_in && decide (GetItemCount st > 0)) = false := by
    simpa using hnot
  simp only [Synchronize, hc, hev, hadd]
  simp

/-- The cycle: with an empty database, logged out and an add-to-list event
pending, neither `Login` nor `Synchronize` returns within any budget; every
unit of the budget is spent on one more nested call of the router, and no
collaborator is called. -/
theorem login_synchronize_cycle (env : Env) (hws : env.trimsWhitespace) (l : List EventItem)
    (hadd : hasAnimeAdd l = true) :
    ∀ (fuel : Nat) (st : State) (wParam lParam : Int),
      st.items = [] → st.logged_in = false → st.event_list = some l →
      (∃ st1, ExecuteAction env fuel "Login" wParam lParam st = .outOfFuel st1
        ∧ st1.debug.length = st.debug.length + fuel ∧ st1.calls = st.calls)
      ∧ (∃ st1, ExecuteAction env fuel "Synchronize" wParam lParam st = .outOfFuel st1
        ∧ st1.debug.length = st.debug.length + fuel ∧ st1.calls = st.calls) := by
  intro fuel
  induction fuel with
  | zero =>
    intro st wParam lParam _ _ _
    exact ⟨⟨st, rfl, rfl, rfl⟩, ⟨st, rfl, rfl, rfl⟩⟩
  | succ n ih =>
    intro st wParam lParam hi hlog hev
    constructor
    · rw [ExecuteAction_Login_eq env hws]
      obtain ⟨st1, h1, h2, h3⟩ := (ih (st.print "Action :: Login\n") TRUE 0 hi hlog hev).2
      refine ⟨st1, ?_, ?_, ?_⟩
      · rw [Login_of_empty env _ _ (show (st.print "Action :: Login\n").items = [] from hi)]
        exact h1
      · rw [h2]; simp [State.print]; omega
      · rw [h3]; rfl
    · rw [ExecuteAction_Synchronize_eq env n "Synchronize" "" wParam lParam st
        (parse_Synchronize env hws)]
      obtain ⟨st1, h1, h2, h3⟩ :=
        (ih (st.print ("Action :: " ++ "Synchronize" ++ "\n")) 0 0 hi hlog hev).1
      refine ⟨st1, ?_, ?_, ?_⟩
      · rw [Synchronize_of_pending env _ _ _ l
          (show ¬ ((st.print ("Action :: " ++ "Synchronize" ++ "\n")).logged_in = true ∧ _) from
            fun h => by rw [show (st.print ("Action :: " ++ "Synchronize" ++ "\n")).logged_in
              = st.logged_in from rfl, hlog] at h; cases h.1)
          (show (st.print ("Action :: " ++ "Synchronize" ++ "\n")).event_list = some l from hev)
          hadd]
        exact h1
      · rw [h2]; simp [State.print]; omega
      · rw [h3]; rfl

/-- C9 fails on the code: with an empty anime database, logged out and an
add-to-list event pending, the handler of `Login` calls `Synchronize`, whose
handler calls `Login` again, and so on: whatever the recursion budget, the call
`ExecuteAction("Login")` does not return within it; it is used up on nested
calls of the router alone (one debug line each, no collaborator called). -/
theorem Login_never_returns (fuel : Nat) :
    ∃ st, ExecuteAction stdEnv fuel "Login" 0 0 pendingAddState = .outOfFuel st
      ∧ st.debug.length = fuel ∧ st.calls = [] := by
  obtain ⟨st1, h1, h2, h3⟩ :=
    (login_synchronize_cycle stdEnv stdEnv_trimsWhitespace _ (by decide) fuel pendingAddState
      0 0 rfl rfl rfl).1
  refine ⟨st1, h1, ?_, h3⟩
  rw [h2]
  simp [pendingAddState, emptyState]

/-- While an add-to-list event is pending, no run of `Login` or `Synchronize`,
whether it returns or not, reaches `mal::GetList`. -/
theorem no_refresh_while_add_pending (env : Env) (hws : env.trimsWhitespace)
    (l : List EventItem) (hadd : hasAnimeAdd l = true) :
    ∀ (fuel : Nat) (st : State) (wParam lParam : Int), st.event_list = some l →
      (∃ new, (ExecuteAction env fuel "Login" wParam lParam st).state.calls = st.calls ++ new
        ∧ ∀ c ∈ new, c.name ≠ "mal::GetList")
      ∧ (∀ action body : String,
          parseAction env.size_bits env.trim_chars action = ("Synchronize", body) →
          ∃ new, (ExecuteAction env fuel action wParam lParam st).state.calls = st.calls ++ new
            ∧ ∀ c ∈ new, c.name ≠ "mal::GetList") := by
  intro fuel
  induction fuel with
  | zero =>
    intro st wParam lParam _
    exact ⟨⟨[], by simp [ExecuteAction, Outcome.state], by simp⟩,
      fun _ _ _ => ⟨[], by simp [ExecuteAction, Outcome.state], by simp⟩⟩
  | succ n ih =>
    intro st wParam lParam hev
    constructor
    · rw [ExecuteAction_Login_eq env hws]
      by_cases hi : st.items = []
      · rw [Login_of_empty env _ _ (show (st.print "Action :: Login\n").items = [] from hi)]
        exact (ih (st.print "Action :: Login\n") TRUE 0 hev).2 "Synchronize" ""
          (parse_Synchronize env hws)
      · rw [Login_of_nonempty env _ _ (show (st.print "Action :: Login\n").items ≠ [] from hi)]
        simp only [Outcome.state]
        split
        · exact ⟨_, by simp only [State.call, State.print, List.append_assoc]; rfl, by simp⟩
        · exact ⟨_, by simp only [State.call, State.print, List.append_assoc]; rfl, by simp⟩
    · intro action body hparse
      rw [ExecuteAction_Synchronize_eq env n action body wParam lParam st hparse]
      by_cases hb : (st.print ("Action :: " ++ action ++ "\n")).logged_in = true
          ∧ 0 < GetItemCount (st.print ("Action :: " ++ action ++ "\n"))
      · rw [Synchronize_of_checking env _ _ _ hb]
        exact ⟨[⟨"EventQueue.Check", []⟩], rfl, by simp⟩
      · rw [Synchronize_of_pending env _ _ _ l hb hev hadd]
        exact (ih (st.print ("Action :: " ++ action ++ "\n")) 0 0 hev).1

/-- The scan of lines 115-120 finds an add-to-list event exactly when the list holds one,
at whatever position. -/
theorem hasAnimeAdd_iff (l : List EventItem) :
    hasAnimeAdd l = true ↔ ∃ e ∈ l, e.mode = some .HTTP_MAL_AnimeAdd := by
  induction l with
  | nil => simp [hasAnimeAdd]
  | cons it rest ih =>
    by_cases h : it.mode = some .HTTP_MAL_AnimeAdd
    · simp [hasAnimeAdd, h]
    · simp [hasAnimeAdd, h, ih]

/-- C10 fails on the code: the claim has `Synchronize`, outside the branch
"logged in and the queue is not empty", dispatch `Login` and return.  With an
empty database, logged out, and a pending event list that contains an
add-to-list event (here as its second event, after a score update), the
dispatched `Login` calls `Synchronize` again and the call never returns:
whatever the recursion budget, the whole budget is spent on nested router
calls (one debug line each) and no collaborator is called, so the log-in that
the comment of lines 117-118 asks for never takes place. -/
theorem Synchronize_does_not_return :
    (∃ l, pendingAddSecond.event_list = some l ∧ ∃ e ∈ l, e.mode = some .HTTP_MAL_AnimeAdd)
    ∧ ¬ (pendingAddSecond.logged_in = true ∧ 0 < GetItemCount pendingAddSecond)
    ∧ ∀ fuel : Nat, ∃ st,
        ExecuteAction stdEnv fuel "Synchronize" 0 0 pendingAddSecond = .outOfFuel st
          ∧ st.debug.length = fuel ∧ st.calls = [] := by
  refine ⟨⟨_, rfl, by decide⟩, by decide, fun fuel => ?_⟩
  obtain ⟨st1, h1, h2, h3⟩ :=
    (login_synchronize_cycle stdEnv stdEnv_trimsWhitespace _ (by decide) fuel pendingAddSecond
      0 0 rfl rfl rfl).2
  refine ⟨st1, h1, ?_, h3⟩
  rw [h2]
  simp [pendingAddSecond, emptyState]

/-- What does hold of `Synchronize` in a state whose pending event list contains
an add-to-list event, at whatever position: it never calls `mal::GetList`
(whatever the budget, and whether the run returns or not, the calls it adds
contain none); when it does not take the branch "logged in and the queue is
not empty", it does what the call `ExecuteAction("Login")` does from the state
it was called in (after its debug line) and nothing after it, so it returns
when that call returns; with a database that is not empty the whole run
returns, within two nested calls (`Trim` removing nothing but whitespace). -/
theorem Synchronize_with_pending_add (env : Env) (hws : env.trimsWhitespace) (fuel : Nat)
    (action body : String) (wParam lParam : Int) (st : State) (l : List EventItem)
    (hparse : parseAction env.size_bits env.trim_chars action = ("Synchronize", body))
    (hev : st.event_list = some l) (hmem : ∃ e ∈ l, e.mode = some .HTTP_MAL_AnimeAdd) :
    (∃ new, (ExecuteAction env fuel action wParam lParam st).state.calls = st.calls ++ new
      ∧ ∀ c ∈ new, c.name ≠ "mal::GetList")
    ∧ (¬ (st.logged_in = true ∧ 0 < GetItemCount st) →
        ExecuteAction env (fuel + 1) action wParam lParam st
          = ExecuteAction env fuel "Login" 0 0 (st.print ("Action :: " ++ action ++ "\n")))
    ∧ (st.items ≠ [] →
        ∃ st1, ExecuteAction env (fuel + 2) action wParam lParam st = .done st1) := by
  have hadd : hasAnimeAdd l = true := (hasAnimeAdd_iff l).mpr hmem
  refine ⟨(no_refresh_while_add_pending env hws l hadd fuel st wParam lParam hev).2 action body
    hparse, fun hb => ?_, fun hi => ?_⟩
  · rw [ExecuteAction_Synchronize_eq env fuel action body wParam lParam st hparse]
    exact Synchronize_of_pending env _ _ _ l hb hev hadd
  · rw [ExecuteAction_Synchronize_eq env (fuel + 1) action body wParam lParam st hparse]
    by_cases hb : (st.print ("Action :: " ++ action ++ "\n")).logged_in = true
        ∧ 0 < GetItemCount (st.print ("Action :: " ++ action ++ "\n"))
    · exact ⟨_, Synchronize_of_checking env _ _ _ hb⟩
    · rw [Synchronize_of_pending env _ _ _ l hb hev hadd, ExecuteAction_Login_eq env hws]
      exact ⟨_, Login_of_nonempty env _ _ hi⟩

/-- The same at `Synchronize` with wParam 1, logged out, with one item in the
database and one add-to-list event pending. -/
theorem Synchronize_with_pending_add_witness :
    (∃ new, (ExecuteAction stdEnv 3 "Synchronize" 1 0 pendingAddListed).state.calls
        = pendingAddListed.calls ++ new
      ∧ ∀ c ∈ new, c.name ≠ "mal::GetList")
    ∧ ExecuteAction stdEnv 4 "Synchronize" 1 0 pendingAddListed
        = ExecuteAction stdEnv 3 "Login" 0 0
            (pendingAddListed.print ("Action :: " ++ "Synchronize" ++ "\n"))
    ∧ ∃ st1, ExecuteAction stdEnv 5 "Synchronize" 1 0 pendingAddListed = .done st1 :=
  have h := Synchronize_with_pending_add stdEnv stdEnv_trimsWhitespace 3 "Synchronize" "" 1 0
    pendingAddListed _ (by decide) rfl (by decide)
  ⟨h.1, h.2.1 (by decide), h.2.2 (by decide)⟩

/-! ## Windows -/

/-- The calls of a given name in two lists of calls put together. -/
theorem callsNamed_append (name : String) (a b : List Call) :
    callsNamed name (a ++ b) = callsNamed name a ++ callsNamed name b := by
  simp [callsNamed]

/-- Recording a call appends it to the calls. -/
theorem call_calls (st : State) (name : String) (args : List Arg) :
    (st.call name args).calls = st.calls ++ [⟨name, args⟩] := rfl

/-- The name of a `Create` call is not the name of an `ActivateWindow` call. -/
theorem create_ne_activate (win : Window) : win.objectName ++ ".Create" ≠ "ActivateWindow" := by
  cases win <;> decide

/-- What the show-or-activate idiom records and leaves. -/
theorem showWindow_calls (st : State) (win : Window) (args : List Arg) :
    (showWindow st win args).windows win = true
    ∧ (st.windows win = false →
        (showWindow st win args).calls = st.calls ++ [⟨win.objectName ++ ".Create", args⟩])
    ∧ (st.windows win = true →
        (showWindow st win args).calls = st.calls ++ [⟨"ActivateWindow", [.hwnd win]⟩]) := by
  refine ⟨?_, fun h => ?_, fun h => ?_⟩
  · by_cases h : st.windows win = true
    · simp [showWindow, h, State.call]
    · simp [showWindow, h, State.create]
  · simp [showWindow, h, State.create, State.call]
  · simp [showWindow, h, State.call]

/-- Every window-opening verb ends in the show-or-activate idiom on its window, after
calls that neither create nor activate it and that leave the windows as they are. -/
theorem ExecuteAction_window (env : Env) (fuel : Nat) (action body verb : String)
    (win : Window) (wParam lParam : Int) (st : State)
    (hverb : (verb, win) ∈ window_verbs)
    (hparse : parseAction env.size_bits env.trim_chars action = (verb, body)) :
    ∃ (st0 : State) (pre : List Call) (args : List Arg),
      ExecuteAction env (fuel + 1) action wParam lParam st = .done (showWindow st0 win args)
      ∧ st0.windows = st.windows
      ∧ st0.calls = st.calls ++ pre
      ∧ callsNamed (win.objectName ++ ".Create") pre = []
      ∧ callsNamed "ActivateWindow" pre = [] := by
  simp only [window_verbs, List.mem_cons, Prod.mk.injEq, List.mem_singleton, List.mem_nil_iff,
    or_false] at hverb
  rcases hverb with hAbout | hUpdate | hFilter | hInfo | hMain | hTest | hSeason | hSettings
    | hTorrents | hFeedFilter | hEditAll
  all_goals first
    | obtain ⟨rfl, rfl⟩ := hAbout | obtain ⟨rfl, rfl⟩ := hUpdate
    | obtain ⟨rfl, rfl⟩ := hFilter | obtain ⟨rfl, rfl⟩ := hInfo
    | obtain ⟨rfl, rfl⟩ := hMain | obtain ⟨rfl, rfl⟩ := hTest
    | obtain ⟨rfl, rfl⟩ := hSeason | obtain ⟨rfl, rfl⟩ := hSettings
    | obtain ⟨rfl, rfl⟩ := hTorrents | obtain ⟨rfl, rfl⟩ := hFeedFilter
    | obtain ⟨rfl, rfl⟩ := hEditAll
  · exact ⟨(st.print ("Action :: " ++ action ++ "\n")), [],
      [.sym "IDD_ABOUT", .sym "g_hMain", .flag true],
      by simp [ExecuteAction, hparse], rfl, by simp [State.print], rfl, rfl⟩
  · exact ⟨(st.print ("Action :: " ++ action ++ "\n")), [],
      [.sym "IDD_UPDATE", .sym "g_hMain", .flag true],
      by simp [ExecuteAction, hparse], rfl, by simp [State.print], rfl, rfl⟩
  · exact ⟨(st.print ("Action :: " ++ action ++ "\n")), [],
      [.sym "IDD_FILTER", .sym "g_hMain", .flag false],
      by simp [ExecuteAction, hparse], rfl, by simp [State.print], rfl, rfl⟩
  · exact ⟨((st.print ("Action :: " ++ action ++ "\n")).call "AnimeDialog.Refresh"
        [.int (animeIdOf lParam (st.print ("Action :: " ++ action ++ "\n")))]).call
        "AnimeDialog.SetCurrentPage" [.sym "INFOPAGE_SERIESINFO"],
      [⟨"AnimeDialog.Refresh",
        [.int (animeIdOf lParam (st.print ("Action :: " ++ action ++ "\n")))]⟩,
       ⟨"AnimeDialog.SetCurrentPage", [.sym "INFOPAGE_SERIESINFO"]⟩],
      [.sym "IDD_ANIME_INFO", .sym "g_hMain", .flag false],
      by simp only [ExecuteAction, hparse]; simp [Info], rfl,
      by simp [State.print, State.call], rfl, rfl⟩
  · exact ⟨(st.print ("Action :: " ++ action ++ "\n")), [],
      [.sym "IDD_MAIN", .sym "NULL", .flag false],
      by simp [ExecuteAction, hparse], rfl, by simp [State.print], rfl, rfl⟩
  · exact ⟨(st.print ("Action :: " ++ action ++ "\n")), [],
      [.sym "IDD_TEST_RECOGNITION", .sym "NULL", .flag false],
      by simp [ExecuteAction, hparse], rfl, by simp [State.print], rfl, rfl⟩
  · exact ⟨(st.print ("Action :: " ++ action ++ "\n")), [],
      [.sym "IDD_SEASON", .sym "nullptr", .flag false],
      by simp [ExecuteAction, hparse], rfl, by simp [State.print], rfl, rfl⟩
  · exact ⟨(st.print ("Action :: " ++ action ++ "\n")).call "SettingsDialog.SetCurrentPage"
        [.int lParam],
      [⟨"SettingsDialog.SetCurrentPage", [.int lParam]⟩],
      [.sym "IDD_SETTINGS", .sym "g_hMain", .flag true],
      by simp only [ExecuteAction, hparse]; simp [Settings], rfl,
      by simp [State.print, State.call], rfl, rfl⟩
  · exact ⟨(st.print ("Action :: " ++ action ++ "\n")), [],
      [.sym "IDD_TORRENT", .sym "NULL", .flag false],
      by simp [ExecuteAction, hparse], rfl, by simp [State.print], rfl, rfl⟩
  · exact ⟨(st.print ("Action :: " ++ action ++ "\n")), [],
      [.sym "IDD_FEED_FILTER", .int lParam, .flag (decide (wParam ≠ FALSE))],
      by simp [ExecuteAction, hparse], rfl, by simp [State.print], rfl, rfl⟩
  · exact ⟨((st.print ("Action :: " ++ action ++ "\n")).call "AnimeDialog.Refresh"
        [.int (animeIdOf lParam (st.print ("Action :: " ++ action ++ "\n")))]).call
        "AnimeDialog.SetCurrentPage" [.sym "INFOPAGE_MYINFO"],
      [⟨"AnimeDialog.Refresh",
        [.int (animeIdOf lParam (st.print ("Action :: " ++ action ++ "\n")))]⟩,
       ⟨"AnimeDialog.SetCurrentPage", [.sym "INFOPAGE_MYINFO"]⟩],
      [.sym "IDD_ANIME_INFO", .sym "g_hMain", .flag false],
      by simp only [ExecuteAction, hparse]; simp [EditAll], rfl,
      by simp [State.print, State.call], rfl, rfl⟩

/-- One call of a window-opening verb: `Create` on its window exactly when the window does
not exist, `ActivateWindow` on it exactly when it exists, and the window exists afterwards. -/
theorem window_show_once (env : Env) (fuel : Nat) (action body verb : String)
    (win : Window) (wParam lParam : Int) (st : State)
    (hverb : (verb, win) ∈ window_verbs)
    (hparse : parseAction env.size_bits env.trim_chars action = (verb, body)) :
    ∃ (st1 : State) (new : List Call),
      ExecuteAction env (fuel + 1) action wParam lParam st = .done st1
      ∧ st1.calls = st.calls ++ new
      ∧ st1.windows win = true
      ∧ (st.windows win = false →
          (callsNamed (win.objectName ++ ".Create") new).length = 1
          ∧ callsNamed "ActivateWindow" new = [])
      ∧ (st.windows win = true →
          callsNamed (win.objectName ++ ".Create") new = []
          ∧ callsNamed "ActivateWindow" new = [⟨"ActivateWindow", [.hwnd win]⟩]) := by
  obtain ⟨st0, pre, args, h1, h2, h3, h4, h5⟩ :=
    ExecuteAction_window env fuel action body verb win wParam lParam st hverb hparse
  obtain ⟨s1, s2, s3⟩ := showWindow_calls st0 win args
  have hne := create_ne_activate win
  by_cases hw : st.windows win = true
  · have hw0 : st0.windows win = true := by rw [h2]; exact hw
    refine ⟨_, pre ++ [⟨"ActivateWindow", [.hwnd win]⟩], h1, ?_, s1, ?_, ?_⟩
    · rw [s3 hw0, h3, List.append_assoc]
    · intro hf; rw [hw] at hf; cases hf
    · intro _
      rw [callsNamed_append, callsNamed_append, h4, h5]
      constructor
      · simp [callsNamed, Ne.symm hne]
      · simp [callsNamed]
  · have hw1 : st.windows win = false := by simpa using hw
    have hw0 : st0.windows win = false := by rw [h2]; exact hw1
    refine ⟨_, pre ++ [⟨win.objectName ++ ".Create", args⟩], h1, ?_, s1, ?_, ?_⟩
    · rw [s2 hw0, h3, List.append_assoc]
    · intro _
      rw [callsNamed_append, callsNamed_append, h4, h5]
      constructor
      · simp [callsNamed]
      · simp [callsNamed, hne]
    · intro ht; exact absurd ht hw

/-- C11: for each window-opening verb (About, CheckUpdates, Filter, Info,
MainDialog, RecognitionTest, SeasonBrowser, Settings, Torrents,
TorrentAddFilter, EditAll) the handler returns having called `Create` on its
window once and `ActivateWindow` not at all when the window did not exist, and
`ActivateWindow` on its window once and `Create` not at all when it existed;
the window exists afterwards, so invoking the same verb again only activates
it: over the two calls the window is created at most once. -/
theorem window_show_idempotent (env : Env) (fuel : Nat) (action body verb : String)
    (win : Window) (wParam lParam : Int) (st : State)
    (hverb : (verb, win) ∈ window_verbs)
    (hparse : parseAction env.size_bits env.trim_chars action = (verb, body)) :
    ∃ (st1 : State) (new1 : List Call) (st2 : State) (new2 : List Call),
      ExecuteAction env (fuel + 1) action wParam lParam st = .done st1
      ∧ st1.calls = st.calls ++ new1
      ∧ (st.windows win = false →
          (callsNamed (win.objectName ++ ".Create") new1).length = 1
          ∧ callsNamed "ActivateWindow" new1 = [])
      ∧ (st.windows win = true →
          callsNamed (win.objectName ++ ".Create") new1 = []
          ∧ callsNamed "ActivateWindow" new1 = [⟨"ActivateWindow", [.hwnd win]⟩])
      ∧ st1.windows win = true
      ∧ ExecuteAction env (fuel + 1) action wParam lParam st1 = .done st2
      ∧ st2.calls = st1.calls ++ new2
      ∧ callsNamed (win.objectName ++ ".Create") new2 = []
      ∧ callsNamed "ActivateWindow" new2 = [⟨"ActivateWindow", [.hwnd win]⟩]
      ∧ (callsNamed (win.objectName ++ ".Create") (new1 ++ new2)).length ≤ 1 := by
  obtain ⟨st1, new1, a1, a2, a3, a4, a5⟩ :=
    window_show_once env fuel action body verb win wParam lParam st hverb hparse
  obtain ⟨st2, new2, b1, b2, _, _, b5⟩ :=
    window_show_once env fuel action body verb win wParam lParam st1 hverb hparse
  refine ⟨st1, new1, st2, new2, a1, a2, a4, a5, a3, b1, b2, (b5 a3).1, (b5 a3).2, ?_⟩
  rw [callsNamed_append, (b5 a3).1, List.append_nil]
  by_cases hw : st.windows win = true
  · rw [(a5 hw).1]; simp
  · rw [(a4 (by simpa using hw)).1]

/-- C11 at `Settings` with page 2, called twice from a state without windows. -/
theorem window_show_idempotent_witness :
    ∃ (st1 : State) (new1 : List Call) (st2 : State) (new2 : List Call),
      ExecuteAction stdEnv 1 "Settings" 0 2 emptyState = .done st1
      ∧ st1.calls = emptyState.calls ++ new1
      ∧ (emptyState.windows .SettingsDialog = false →
          (callsNamed (Window.objectName .SettingsDialog ++ ".Create") new1).length = 1
          ∧ callsNamed "ActivateWindow" new1 = [])
      ∧ (emptyState.windows .SettingsDialog = true →
          callsNamed (Window.objectName .SettingsDialog ++ ".Create") new1 = []
          ∧ callsNamed "ActivateWindow" new1 = [⟨"ActivateWindow", [.hwnd .SettingsDialog]⟩])
      ∧ st1.windows .SettingsDialog = true
      ∧ ExecuteAction stdEnv 1 "Settings" 0 2 st1 = .done st2
      ∧ st2.calls = st1.calls ++ new2
      ∧ callsNamed (Window.objectName .SettingsDialog ++ ".Create") new2 = []
      ∧ callsNamed "ActivateWindow" new2 = [⟨"ActivateWindow", [.hwnd .SettingsDialog]⟩]
      ∧ (callsNamed (Window.objectName .SettingsDialog ++ ".Create") (new1 ++ new2)).length
          ≤ 1 :=
  window_show_idempotent stdEnv 0 "Settings" "" "Settings" .SettingsDialog 0 2 emptyState
    (by decide) (by decide)

/-! ## Announcements -/

/-- C12: for each of the verbs AnnounceToHTTP, AnnounceToMessenger,
AnnounceToMIRC, AnnounceToSkype and AnnounceToTwitter and for every body, the
handler returns after exactly one call, `Announcer.Do`, with the channel
constant of the verb and with force = true if and only if the trimmed body is
the string `true`; nothing else changes (only the line of `debug::Print` is
added). -/
theorem AnnounceTo_dispatch (env : Env) (fuel : Nat) (action body verb channel : String)
    (wParam lParam : Int) (st : State)
    (hverb : (verb, channel) ∈ announce_verbs)
    (hparse : parseAction env.size_bits env.trim_chars action = (verb, body)) :
    ExecuteAction env (fuel + 1) action wParam lParam st
      = .done { st with
          debug := st.debug ++ ["Action :: " ++ action ++ "\n"]
          calls := st.calls ++
            [⟨"Announcer.Do",
              [.sym channel, .sym "nullptr", .flag (decide (body = "true"))]⟩] } := by
  simp only [announce_verbs, List.mem_cons, Prod.mk.injEq, List.mem_singleton, List.mem_nil_iff,
    or_false] at hverb
  rcases hverb with ⟨rfl, rfl⟩ | ⟨rfl, rfl⟩ | ⟨rfl, rfl⟩ | ⟨rfl, rfl⟩ | ⟨rfl, rfl⟩ <;>
    simp [ExecuteAction, hparse, AnnounceTo, State.call, State.print]

/-- C12 at `AnnounceToHTTP( true )` (force), `AnnounceToSkype(True)`,
`AnnounceToMIRC(1)` and `AnnounceToTwitter` (no force). -/
theorem AnnounceTo_dispatch_witness :
    ExecuteAction stdEnv 1 "AnnounceToHTTP( true )" 0 0 emptyState
      = .done { emptyState with
          debug := emptyState.debug ++ ["Action :: " ++ "AnnounceToHTTP( true )" ++ "\n"]
          calls := emptyState.calls ++
            [⟨"Announcer.Do", [.sym "ANNOUNCE_TO_HTTP", .sym "nullptr", .flag true]⟩] }
    ∧ ExecuteAction stdEnv 1 "AnnounceToSkype(True)" 0 0 emptyState
      = .done { emptyState with
          debug := emptyState.debug ++ ["Action :: " ++ "AnnounceToSkype(True)" ++ "\n"]
          calls := emptyState.calls ++
            [⟨"Announcer.Do", [.sym "ANNOUNCE_TO_SKYPE", .sym "nullptr", .flag false]⟩] }
    ∧ ExecuteAction stdEnv 1 "AnnounceToMIRC(1)" 0 0 emptyState
      = .done { emptyState with
          debug := emptyState.debug ++ ["Action :: " ++ "AnnounceToMIRC(1)" ++ "\n"]
          calls := emptyState.calls ++
            [⟨"Announcer.Do", [.sym "ANNOUNCE_TO_MIRC", .sym "nullptr", .flag false]⟩] }
    ∧ ExecuteAction stdEnv 1 "AnnounceToTwitter" 0 0 emptyState
      = .done { emptyState with
          debug := emptyState.debug ++ ["Action :: " ++ "AnnounceToTwitter" ++ "\n"]
          calls := emptyState.calls ++
            [⟨"Announcer.Do", [.sym "ANNOUNCE_TO_TWITTER", .sym "nullptr", .flag false]⟩] } :=
  ⟨AnnounceTo_dispatch stdEnv 0 "AnnounceToHTTP( true )" "true" "AnnounceToHTTP"
      "ANNOUNCE_TO_HTTP" 0 0 emptyState (by decide) (by decide),
   AnnounceTo_dispatch stdEnv 0 "AnnounceToSkype(True)" "True" "AnnounceToSkype"
      "ANNOUNCE_TO_SKYPE" 0 0 emptyState (by decide) (by decide),
   AnnounceTo_dispatch stdEnv 0 "AnnounceToMIRC(1)" "1" "AnnounceToMIRC"
      "ANNOUNCE_TO_MIRC" 0 0 emptyState (by decide) (by decide),
   AnnounceTo_dispatch stdEnv 0 "AnnounceToTwitter" "" "AnnounceToTwitter"
      "ANNOUNCE_TO_TWITTER" 0 0 emptyState (by decide) (by decide)⟩

/-! ## Playback -/

/-- The call `GetCurrentItem()->PlayEpisode(number)` when there is a current item. -/
theorem playCurrent_of_item (number : Int) (st : State) (item : Item)
    (hitem : GetCurrentItem st = some item) :
    playCurrent number st
      = .done (st.call "anime::Item::PlayEpisode" [.int st.current_id, .int number]) := by
  simp only [playCurrent, hitem]

/-- C13 fails as stated: for a current item with one episode, of which one is
watched, `PlayNext` plays episode 1, not last-watched + 1 = 2. -/
theorem PlayNext_single_episode_plays_first :
    GetCurrentItem (stateWith (itemWith .STATUS_FINISHED 1 1))
        = some (itemWith .STATUS_FINISHED 1 1)
    ∧ (itemWith .STATUS_FINISHED 1 1).my_last_watched_episode + 1 = 2
    ∧ ExecuteAction stdEnv 1 "PlayNext" 0 0 (stateWith (itemWith .STATUS_FINISHED 1 1))
      = .done (((stateWith (itemWith .STATUS_FINISHED 1 1)).print "Action :: PlayNext\n").call
          "anime::Item::PlayEpisode" [.int 7, .int 1]) := by
  refine ⟨by decide, by decide, ?_⟩
  rfl

/-- C13 as amended: for every state that has a current item, `PlayEpisode`
plays the number parsed from the body, `PlayLast` plays the last-watched episode
number of the item, and `PlayNext` plays last-watched + 1 when the episode count
of the item is not 1 (last-watched being an `int` below `INT_MAX`) and episode 1
when the episode count is 1; each is one `PlayEpisode` call on the current
item and nothing else (apart from the line of `debug::Print`). -/
theorem Play_episode_numbers (env : Env) (fuel : Nat) (action body : String)
    (wParam lParam : Int) (st : State) (item : Item)
    (hitem : GetCurrentItem st = some item) :
    (parseAction env.size_bits env.trim_chars action = ("PlayEpisode", body) →
      ExecuteAction env (fuel + 1) action wParam lParam st
        = .done ((st.print ("Action :: " ++ action ++ "\n")).call "anime::Item::PlayEpisode"
            [.int st.current_id, .int (toInt32 (env.ToInt body))]))
    ∧ (parseAction env.size_bits env.trim_chars action = ("PlayLast", body) →
      ExecuteAction env (fuel + 1) action wParam lParam st
        = .done ((st.print ("Action :: " ++ action ++ "\n")).call "anime::Item::PlayEpisode"
            [.int st.current_id, .int item.my_last_watched_episode]))
    ∧ (parseAction env.size_bits env.trim_chars action = ("PlayNext", body) →
      (item.episode_count ≠ 1 →
        -2147483648 ≤ item.my_last_watched_episode → item.my_last_watched_episode < 2147483647 →
        ExecuteAction env (fuel + 1) action wParam lParam st
          = .done ((st.print ("Action :: " ++ action ++ "\n")).call "anime::Item::PlayEpisode"
              [.int st.current_id, .int (item.my_last_watched_episode + 1)]))
      ∧ (item.episode_count = 1 →
        ExecuteAction env (fuel + 1) action wParam lParam st
          = .done ((st.print ("Action :: " ++ action ++ "\n")).call "anime::Item::PlayEpisode"
              [.int st.current_id, .int 1]))) := by
  have hitem2 : GetCurrentItem (st.print ("Action :: " ++ action ++ "\n")) = some item := hitem
  refine ⟨fun hparse => ?_, fun hparse => ?_, fun hparse => ⟨fun hc h1 h2 => ?_, fun hc => ?_⟩⟩
  · have e : ExecuteAction env (fuel + 1) action wParam lParam st
        = PlayEpisode env body (st.print ("Action :: " ++ action ++ "\n")) := by
      simp [ExecuteAction, hparse]
    rw [e, PlayEpisode, playCurrent_of_item _ _ item hitem2]
    rfl
  · have e : ExecuteAction env (fuel + 1) action wParam lParam st
        = PlayLast (st.print ("Action :: " ++ action ++ "\n")) := by
      simp [ExecuteAction, hparse]
    rw [e]
    simp only [PlayLast, hitem2]
    rw [playCurrent_of_item _ _ item hitem2]
    rfl
  · have e : ExecuteAction env (fuel + 1) action wParam lParam st
        = PlayNext (st.print ("Action :: " ++ action ++ "\n")) := by
      simp [ExecuteAction, hparse]
    rw [e]
    simp only [PlayNext, hitem2, ne_eq, hc, not_false_eq_true, if_true]
    rw [playCurrent_of_item _ _ item hitem2, toInt32_of_range (by omega) (by omega)]
    rfl
  · have e : ExecuteAction env (fuel + 1) action wParam lParam st
        = PlayNext (st.print ("Action :: " ++ action ++ "\n")) := by
      simp [ExecuteAction, hparse]
    rw [e]
    simp only [PlayNext, hitem2, ne_eq, hc, not_true_eq_false, if_false]
    rw [playCurrent_of_item _ _ item hitem2]
    rfl

/-- C13 as amended, at `PlayEpisode(3)`, `PlayLast` and `PlayNext` for a
twelve-episode item with five episodes watched (episodes 3, 5 and 6), and at
`PlayNext` for a one-episode item (episode 1). -/
theorem Play_episode_numbers_witness :
    ExecuteAction stdEnv 1 "PlayEpisode(3)" 0 0 (sampleState .STATUS_FINISHED)
        = .done (((sampleState .STATUS_FINISHED).print
            ("Action :: " ++ "PlayEpisode(3)" ++ "\n")).call "anime::Item::PlayEpisode"
            [.int 7, .int 3])
    ∧ ExecuteAction stdEnv 1 "PlayLast" 0 0 (sampleState .STATUS_FINISHED)
        = .done (((sampleState .STATUS_FINISHED).print
            ("Action :: " ++ "PlayLast" ++ "\n")).call "anime::Item::PlayEpisode"
            [.int 7, .int 5])
    ∧ ExecuteAction stdEnv 1 "PlayNext" 0 0 (sampleState .STATUS_FINISHED)
        = .done (((sampleState .STATUS_FINISHED).print
            ("Action :: " ++ "PlayNext" ++ "\n")).call "anime::Item::PlayEpisode"
            [.int 7, .int (5 + 1)])
    ∧ ExecuteAction stdEnv 1 "PlayNext" 0 0 (stateWith (itemWith .STATUS_FINISHED 1 1))
        = .done (((stateWith (itemWith .STATUS_FINISHED 1 1)).print
            ("Action :: " ++ "PlayNext" ++ "\n")).call "anime::Item::PlayEpisode"
            [.int 7, .int 1]) :=
  ⟨(Play_episode_numbers stdEnv 0 "PlayEpisode(3)" "3" 0 0 (sampleState .STATUS_FINISHED)
      (sampleItem .STATUS_FINISHED) (by decide)).1 (by decide),
   (Play_episode_numbers stdEnv 0 "PlayLast" "" 0 0 (sampleState .STATUS_FINISHED)
      (sampleItem .STATUS_FINISHED) (by decide)).2.1 (by decide),
   ((Play_episode_numbers stdEnv 0 "PlayNext" "" 0 0 (sampleState .STATUS_FINISHED)
      (sampleItem .STATUS_FINISHED) (by decide)).2.2 (by decide)).1 (by decide) (by decide)
      (by decide),
   ((Play_episode_numbers stdEnv 0 "PlayNext" "" 0 0 (stateWith (itemWith .STATUS_FINISHED 1 1))
      (itemWith .STATUS_FINISHED 1 1) (by decide)).2.2 (by decide)).2 (by decide)⟩

/-! ## PlayRandom -/

/-- The draw of `seededDraw` lies between 0 and `RAND_MAX`. -/
theorem seededDraw_range (env : Env) (st : State) :
    0 ≤ (seededDraw env st).1 ∧ (seededDraw env st).1 ≤ RAND_MAX := by
  simp only [seededDraw, RAND_MAX]
  omega


/-- The folder check records one call. -/
theorem CheckFolder_calls (env : Env) (id : Int) (st : State) :
    (CheckFolder env id st).2.calls = st.calls ++ [⟨"anime::Item::CheckFolder", [.int id]⟩] := by
  unfold CheckFolder
  simp only []
  split <;> rfl

/-- One round of the loop of `PlayRandom` records five calls: the tick count, the seed,
the draw, the folder check and the file search for the given episode. -/
theorem round_calls (env : Env) (id episode : Int) (st : State) :
    ∃ (seed : Int) (folder : String),
      (searchEpisodeFile env id episode (seededDraw env st).2).2.calls
        = st.calls ++
          [⟨"GetTickCount", []⟩, ⟨"srand", [.int seed]⟩, ⟨"rand", []⟩,
           ⟨"anime::Item::CheckFolder", [.int id]⟩,
           ⟨"SearchFileFolder", [.int id, .str folder, .int episode, .flag false]⟩] := by
  refine ⟨env.retInt (st.call "GetTickCount" []) % 4294967296, ?_⟩
  simp only [searchEpisodeFile]
  apply Exists.intro
  rw [call_calls, CheckFolder_calls]
  show (((st.call "GetTickCount" []).call "srand" _).call "rand" []).calls ++ _ ++ _ = _
  rw [call_calls, call_calls, call_calls]
  simp only [List.append_assoc, List.cons_append, List.nil_append]
  rfl

/-- What the loop of `PlayRandom` records. -/
theorem playRandomLoop_calls (env : Env) (id total : Int) :
    ∀ (n : Nat) (st : State), ∃ new : List Call,
      (playRandomLoop env id total n st).calls = st.calls ++ new
      ∧ (callsNamed "SearchFileFolder" new).length ≤ n
      ∧ (callsNamed "rand" new).length = (callsNamed "SearchFileFolder" new).length
      ∧ (callsNamed "Execute" new).length ≤ 1
      ∧ (∀ c ∈ new, c.name = "Execute" →
          ∃ (front : List Call) (search : Call) (file : String),
            new = front ++ [search, c] ∧ search.name = "SearchFileFolder"
            ∧ file ≠ "" ∧ c.args = [.str file])
      ∧ (0 < total → ∀ c ∈ new, c.name = "SearchFileFolder" →
          ∃ (folder : String) (episode : Int),
            c.args = [.int id, .str folder, .int episode, .flag false]
            ∧ 1 ≤ episode ∧ episode ≤ total) := by
  intro n
  induction n with
  | zero =>
    intro st
    exact ⟨[], by simp [playRandomLoop], by simp [callsNamed], by simp [callsNamed],
      by simp [callsNamed], by simp, by simp⟩
  | succ n ih =>
    intro st
    obtain ⟨seed, folder, hr⟩ := round_calls env id ((seededDraw env st).1 % total + 1) st
    have hd := seededDraw_range env st
    simp only [playRandomLoop]
    split
    · rename_i hfile
      refine ⟨[⟨"GetTickCount", []⟩, ⟨"srand", [.int seed]⟩, ⟨"rand", []⟩,
           ⟨"anime::Item::CheckFolder", [.int id]⟩,
           ⟨"SearchFileFolder",
            [.int id, .str folder, .int ((seededDraw env st).1 % total + 1), .flag false]⟩,
           ⟨"Execute", [.str (searchEpisodeFile env id ((seededDraw env st).1 % total + 1)
              (seededDraw env st).2).1]⟩], ?_, ?_, ?_, ?_, ?_, ?_⟩
      · simp only [State.call, hr, List.append_assoc, List.cons_append, List.nil_append]
      · simp [callsNamed]
      · simp [callsNamed]
      · simp [callsNamed]
      · intro c hc hname
        simp only [List.mem_cons, List.mem_singleton, List.mem_nil_iff, or_false] at hc
        rcases hc with rfl | rfl | rfl | rfl | rfl | rfl <;> simp at hname
        exact ⟨[⟨"GetTickCount", []⟩, ⟨"srand", [.int seed]⟩, ⟨"rand", []⟩,
           ⟨"anime::Item::CheckFolder", [.int id]⟩], _, _, rfl, rfl, hfile, rfl⟩
      · intro htotal c hc hname
        simp only [List.mem_cons, List.mem_singleton, List.mem_nil_iff, or_false] at hc
        rcases hc with rfl | rfl | rfl | rfl | rfl | rfl <;> simp at hname
        refine ⟨folder, _, rfl, ?_, ?_⟩
        · have := Int.emod_nonneg (seededDraw env st).1 (ne_of_gt htotal)
          omega
        · have := Int.emod_lt_of_pos (seededDraw env st).1 htotal
          omega
    · obtain ⟨new, h1, h2, h3, h4, h5, h6⟩ :=
        ih (searchEpisodeFile env id ((seededDraw env st).1 % total + 1) (seededDraw env st).2).2
      refine ⟨[⟨"GetTickCount", []⟩, ⟨"srand", [.int seed]⟩, ⟨"rand", []⟩,
           ⟨"anime::Item::CheckFolder", [.int id]⟩,
           ⟨"SearchFileFolder",
            [.int id, .str folder, .int ((seededDraw env st).1 % total + 1), .flag false]⟩]
           ++ new, ?_, ?_, ?_, ?_, ?_, ?_⟩
      · rw [h1, hr]; simp
      · rw [callsNamed_append]
        simp [callsNamed] at h2 ⊢
        omega
      · rw [callsNamed_append, callsNamed_append]
        simp [callsNamed] at h3 ⊢
        omega
      · rw [callsNamed_append]
        simp [callsNamed] at h4 ⊢
        omega
      · intro c hc hname
        rw [List.mem_append] at hc
        rcases hc with hc | hc
        · simp only [List.mem_cons, List.mem_singleton, List.mem_nil_iff, or_false] at hc
          rcases hc with rfl | rfl | rfl | rfl | rfl <;> simp at hname
        · obtain ⟨front, search, file, hl, hs, hf, ha⟩ := h5 c hc hname
          refine ⟨[⟨"GetTickCount", []⟩, ⟨"srand", [.int seed]⟩, ⟨"rand", []⟩,
            ⟨"anime::Item::CheckFolder", [.int id]⟩,
            ⟨"SearchFileFolder",
              [.int id, .str folder, .int ((seededDraw env st).1 % total + 1), .flag false]⟩]
            ++ front, search, file, ?_, hs, hf, ha⟩
          rw [hl, List.append_assoc]
      · intro htotal c hc hname
        rw [List.mem_append] at hc
        rcases hc with hc | hc
        · simp only [List.mem_cons, List.mem_singleton, List.mem_nil_iff, or_false] at hc
          rcases hc with rfl | rfl | rfl | rfl | rfl <;> simp at hname
          refine ⟨folder, _, rfl, ?_, ?_⟩
          · have := Int.emod_nonneg (seededDraw env st).1 (ne_of_gt htotal)
            omega
          · have := Int.emod_lt_of_pos (seededDraw env st).1 htotal
            omega
        · exact h6 htotal c hc hname

/-- The retry rounds of the loop of `PlayRandom` (lines 733-742): the states after each
file search form a chain of rounds, at most `n` of them; every search but the last found
nothing; and either the last search found a file, which is launched and ends the loop, or
all `n` searches found nothing and the loop ends after the last one. -/
theorem playRandomLoop_rounds (env : Env) (id total : Int) :
    ∀ (n : Nat) (st : State), (0 < total ∨ n = 0) →
      ∃ rounds : List State,
        List.Chain (searchRound id total) st rounds
        ∧ rounds.length ≤ n
        ∧ (∀ s ∈ rounds.dropLast, env.retStr s = "")
        ∧ ((rounds ≠ []
              ∧ env.retStr ((st :: rounds).getLast (List.cons_ne_nil _ _)) ≠ ""
              ∧ playRandomLoop env id total n st
                = ((st :: rounds).getLast (List.cons_ne_nil _ _)).call "Execute"
                    [.str (env.retStr ((st :: rounds).getLast (List.cons_ne_nil _ _)))])
          ∨ (rounds.length = n
              ∧ (∀ s ∈ rounds, env.retStr s = "")
              ∧ playRandomLoop env id total n st
                = (st :: rounds).getLast (List.cons_ne_nil _ _))) := by
  intro n
  induction n with
  | zero =>
    intro st _
    exact ⟨[], List.Chain.nil, by simp, by simp, Or.inr ⟨rfl, by simp, rfl⟩⟩
  | succ n ih =>
    intro st hpos
    have htotal : 0 < total := by
      rcases hpos with h | h
      · exact h
      · cases h
    obtain ⟨seed, folder, hr⟩ := round_calls env id ((seededDraw env st).1 % total + 1) st
    have hd := seededDraw_range env st
    have hround : searchRound id total st
        (searchEpisodeFile env id ((seededDraw env st).1 % total + 1) (seededDraw env st).2).2 := by
      refine ⟨seed, folder, _, hr, ?_, ?_⟩
      · have := Int.emod_nonneg (seededDraw env st).1 (ne_of_gt htotal)
        omega
      · have := Int.emod_lt_of_pos (seededDraw env st).1 htotal
        omega
    have hfile : (searchEpisodeFile env id ((seededDraw env st).1 % total + 1)
          (seededDraw env st).2).1
        = env.retStr (searchEpisodeFile env id ((seededDraw env st).1 % total + 1)
          (seededDraw env st).2).2 := rfl
    by_cases hfound : (searchEpisodeFile env id ((seededDraw env st).1 % total + 1)
        (seededDraw env st).2).1 ≠ ""
    · refine ⟨[(searchEpisodeFile env id ((seededDraw env st).1 % total + 1)
          (seededDraw env st).2).2], List.Chain.cons hround List.Chain.nil, by simp, by simp,
          Or.inl ⟨by simp, ?_, ?_⟩⟩
      · simpa [← hfile] using hfound
      · simp only [playRandomLoop, List.getLast_cons_cons, List.getLast_singleton]
        rw [if_pos hfound]
        rfl
    · obtain ⟨rounds, c1, c2, c3, c4⟩ := ih (searchEpisodeFile env id
        ((seededDraw env st).1 % total + 1) (seededDraw env st).2).2 (Or.inl htotal)
      have hempty : env.retStr (searchEpisodeFile env id ((seededDraw env st).1 % total + 1)
          (seededDraw env st).2).2 = "" := by
        rw [← hfile]; simpa using hfound
      have hloop : playRandomLoop env id total (n + 1) st
          = playRandomLoop env id total n (searchEpisodeFile env id
              ((seededDraw env st).1 % total + 1) (seededDraw env st).2).2 := by
        simp only [playRandomLoop]
        rw [if_neg hfound]
      refine ⟨(searchEpisodeFile env id ((seededDraw env st).1 % total + 1)
          (seededDraw env st).2).2 :: rounds, List.Chain.cons hround c1,
          by simp; omega, ?_, ?_⟩
      · intro s hs
        cases rounds with
        | nil => simp at hs
        | cons r rs =>
          rw [List.dropLast_cons₂] at hs
          rcases List.mem_cons.mp hs with h | h
          · rw [h]; exact hempty
          · exact c3 s h
      · rw [hloop, List.getLast_cons_cons]
        rcases c4 with ⟨d1, d2, d3⟩ | ⟨d1, d2, d3⟩
        · exact Or.inl ⟨by simp, d2, d3⟩
        · refine Or.inr ⟨by simp [d1], ?_, d3⟩
          intro s hs
          rcases List.mem_cons.mp hs with h | h
          · rw [h]; exact hempty
          · exact d2 s h

/-- C14: `PlayRandom` is a bounded retry.  For the item it picks, with total =
the episode count of the item, or last-watched + 1 when the episode count is 0,
and for every sequence of tick counts, random draws and search results, the
handler returns, and its run is a sequence of at most total rounds (none when
total is not positive), each made of one seeding, one draw, one folder check
and one file search for an episode in [1, total]; whenever a round is run the
modulus total is positive.  Every search but the last found nothing.  Either
the last search found a file: then exactly that file is launched, as the last
call, and the handler stops there; or no search found a file: then exactly
total rounds were run and nothing is launched.  In counts: at most total
searches, one draw per search, at most one `Execute`. -/
theorem PlayRandom_bounded (env : Env) (fuel : Nat) (action body : String)
    (wParam lParam : Int) (st : State) (item : Item) (total : Int)
    (hparse : parseAction env.size_bits env.trim_chars action = ("PlayRandom", body))
    (hitem : FindItem st
        (if toInt32 (env.ToInt body) ≠ 0 then toInt32 (env.ToInt body) else st.current_id)
      = some item)
    (htotal : total = if item.episode_count = 0 then toInt32 (item.my_last_watched_episode + 1)
      else item.episode_count) :
    ∃ (st1 : State) (new : List Call) (rounds : List State),
      ExecuteAction env (fuel + 1) action wParam lParam st = .done st1
      ∧ st1.calls = st.calls ++ new
      ∧ (callsNamed "SearchFileFolder" new).length ≤ total.toNat
      ∧ (callsNamed "rand" new).length = (callsNamed "SearchFileFolder" new).length
      ∧ (callsNamed "rand" new ≠ [] →
          0 < total ∧ ((callsNamed "SearchFileFolder" new).length : Int) ≤ total)
      ∧ (∀ c ∈ new, c.name = "SearchFileFolder" →
          ∃ (folder : String) (episode : Int),
            c.args = [.int (if toInt32 (env.ToInt body) ≠ 0 then toInt32 (env.ToInt body)
                else st.current_id), .str folder, .int episode, .flag false]
            ∧ 1 ≤ episode ∧ episode ≤ total)
      ∧ (callsNamed "Execute" new).length ≤ 1
      ∧ (∀ c ∈ new, c.name = "Execute" →
          ∃ (front : List Call) (search : Call) (file : String),
            new = front ++ [search, c] ∧ search.name = "SearchFileFolder"
            ∧ file ≠ "" ∧ c.args = [.str file])
      ∧ List.Chain
          (searchRound (if toInt32 (env.ToInt body) ≠ 0 then toInt32 (env.ToInt body)
            else st.current_id) total)
          (st.print ("Action :: " ++ action ++ "\n")) rounds
      ∧ rounds.length ≤ total.toNat
      ∧ (rounds ≠ [] → 0 < total)
      ∧ (∀ s ∈ rounds.dropLast, env.retStr s = "")
      ∧ ((rounds ≠ []
            ∧ env.retStr ((st.print ("Action :: " ++ action ++ "\n") :: rounds).getLast
                (List.cons_ne_nil _ _)) ≠ ""
            ∧ st1 = ((st.print ("Action :: " ++ action ++ "\n") :: rounds).getLast
                (List.cons_ne_nil _ _)).call "Execute"
                  [.str (env.retStr ((st.print ("Action :: " ++ action ++ "\n")
                    :: rounds).getLast
                    (List.cons_ne_nil _ _)))])
        ∨ (rounds.length = total.toNat
            ∧ (∀ s ∈ rounds, env.retStr s = "")
            ∧ st1 = (st.print ("Action :: " ++ action ++ "\n") :: rounds).getLast
                (List.cons_ne_nil _ _))) := by
  have e : ExecuteAction env (fuel + 1) action wParam lParam st
      = PlayRandom env body (st.print ("Action :: " ++ action ++ "\n")) := by
    simp [ExecuteAction, hparse]
  have hitem2 : FindItem (st.print ("Action :: " ++ action ++ "\n"))
      (if toInt32 (env.ToInt body) ≠ 0 then toInt32 (env.ToInt body)
        else (st.print ("Action :: " ++ action ++ "\n")).current_id) = some item := hitem
  obtain ⟨new, h1, h2, h3, h4, h5, h6⟩ := playRandomLoop_calls env
    (if toInt32 (env.ToInt body) ≠ 0 then toInt32 (env.ToInt body) else st.current_id)
    total total.toNat (st.print ("Action :: " ++ action ++ "\n"))
  obtain ⟨rounds, r1, r2, r3, r4⟩ := playRandomLoop_rounds env
    (if toInt32 (env.ToInt body) ≠ 0 then toInt32 (env.ToInt body) else st.current_id)
    total total.toNat (st.print ("Action :: " ++ action ++ "\n")) (by omega)
  have hpos : callsNamed "rand" new ≠ [] → 0 < total := by
    intro hne
    have : 0 < (callsNamed "rand" new).length := List.length_pos.mpr hne
    omega
  have hrun : ExecuteAction env (fuel + 1) action wParam lParam st
      = .done (playRandomLoop env
          (if toInt32 (env.ToInt body) ≠ 0 then toInt32 (env.ToInt body) else st.current_id)
          total total.toNat (st.print ("Action :: " ++ action ++ "\n"))) := by
    rw [e]
    simp only [PlayRandom, hitem2, ← htotal]
    rfl
  refine ⟨_, new, rounds, hrun, h1, h2, h3, ?_, ?_, h4, h5, r1, r2, ?_, r3, r4⟩
  · intro hne
    have := hpos hne
    exact ⟨this, by omega⟩
  · intro c hc hname
    have hne : callsNamed "rand" new ≠ [] := by
      intro h0
      have hmem : c ∈ callsNamed "SearchFileFolder" new := by
        simp [callsNamed, hc, hname]
      have : (callsNamed "SearchFileFolder" new).length = 0 := by rw [← h3, h0]; rfl
      rw [List.length_eq_zero] at this
      rw [this] at hmem
      cases hmem
    exact h6 (hpos hne) c hc hname
  · intro hne
    have : 0 < rounds.length := List.length_pos.mpr hne
    omega

/-- C14 at `PlayRandom` for a twelve-episode current item, in an environment
whose second search finds `episode.mkv`: two rounds are run, both for episode
1 of item 7, and the file found by the second is launched. -/
theorem PlayRandom_bounded_witness :
    (ExecuteAction findingEnv 1 "PlayRandom" 0 0 (sampleState .STATUS_FINISHED)).state.calls
        = [⟨"GetTickCount", []⟩, ⟨"srand", [.int 0]⟩, ⟨"rand", []⟩,
           ⟨"anime::Item::CheckFolder", [.int 7]⟩,
           ⟨"SearchFileFolder", [.int 7, .str "", .int 1, .flag false]⟩,
           ⟨"GetTickCount", []⟩, ⟨"srand", [.int 0]⟩, ⟨"rand", []⟩,
           ⟨"anime::Item::CheckFolder", [.int 7]⟩,
           ⟨"SearchFileFolder", [.int 7, .str "", .int 1, .flag false]⟩,
           ⟨"Execute", [.str "episode.mkv"]⟩]
    ∧ ∃ (st1 : State) (new : List Call) (rounds : List State),
      ExecuteAction findingEnv 1 "PlayRandom" 0 0 (sampleState .STATUS_FINISHED) = .done st1
      ∧ st1.calls = (sampleState .STATUS_FINISHED).calls ++ new
      ∧ (callsNamed "SearchFileFolder" new).length ≤ (12 : Int).toNat
      ∧ (callsNamed "rand" new).length = (callsNamed "SearchFileFolder" new).length
      ∧ (callsNamed "rand" new ≠ [] →
          0 < (12 : Int) ∧ ((callsNamed "SearchFileFolder" new).length : Int) ≤ (12 : Int))
      ∧ (∀ c ∈ new, c.name = "SearchFileFolder" →
          ∃ (folder : String) (episode : Int),
            c.args = [.int (7 : Int), .str folder, .int episode, .flag false]
            ∧ 1 ≤ episode ∧ episode ≤ (12 : Int))
      ∧ (callsNamed "Execute" new).length ≤ 1
      ∧ (∀ c ∈ new, c.name = "Execute" →
          ∃ (front : List Call) (search : Call) (file : String),
            new = front ++ [search, c] ∧ search.name = "SearchFileFolder"
            ∧ file ≠ "" ∧ c.args = [.str file])
      ∧ List.Chain
          (searchRound (7 : Int) 12)
          ((sampleState .STATUS_FINISHED).print ("Action :: " ++ "PlayRandom" ++ "\n")) rounds
      ∧ rounds.length ≤ (12 : Int).toNat
      ∧ (rounds ≠ [] → 0 < (12 : Int))
      ∧ (∀ s ∈ rounds.dropLast, findingEnv.retStr s = "")
      ∧ ((rounds ≠ []
            ∧ findingEnv.retStr
                (((sampleState .STATUS_FINISHED).print ("Action :: " ++ "PlayRandom" ++ "\n")
                  :: rounds).getLast (List.cons_ne_nil _ _)) ≠ ""
            ∧ st1 =
                (((sampleState .STATUS_FINISHED).print ("Action :: " ++ "PlayRandom" ++ "\n")
                  :: rounds).getLast (List.cons_ne_nil _ _)).call "Execute"
                  [.str (findingEnv.retStr
                    (((sampleState .STATUS_FINISHED).print
                        ("Action :: " ++ "PlayRandom" ++ "\n")
                      :: rounds).getLast (List.cons_ne_nil _ _)))])
        ∨ (rounds.length = (12 : Int).toNat
            ∧ (∀ s ∈ rounds, findingEnv.retStr s = "")
            ∧ st1 = ((sampleState .STATUS_FINISHED).print ("Action :: " ++ "PlayRandom" ++ "\n")
                :: rounds).getLast
                (List.cons_ne_nil _ _))) :=
  ⟨by decide,
    PlayRandom_bounded findingEnv 0 "PlayRandom" "" 0 0 (sampleState .STATUS_FINISHED)
      (sampleItem .STATUS_FINISHED) 12 (by decide) (by decide) (by decide)⟩

/-! ## EditStatus: the event -/

/-- What `queueStatus` records: possibly the two calls that set the end date, then one
`EventQueue.Add` with the event. -/
theorem queueStatus_calls (env : Env) (status : Int) (item : Item) (st : State) :
    ∃ pre : List Call,
      (queueStatus env status item st).calls
        = st.calls ++ pre ++
          [⟨"EventQueue.Add",
            [.event
              { anime_id := some st.current_id
                episode := some
                  (if status = env.MYSTATUS_COMPLETED ∧ item.episode_count ≠ 0
                      ∧ item.episode_count ≠ -1 then item.episode_count else -1)
                status := some status
                mode := some
                  (if status = env.MYSTATUS_COMPLETED ∧ item.episode_count ≠ 0
                      ∧ item.episode_count ≠ -1 then .HTTP_MAL_AnimeEdit
                   else .HTTP_MAL_StatusUpdate) }]⟩]
      ∧ callsNamed "EventQueue.Add" pre = [] := by
  by_cases hs : status = env.MYSTATUS_COMPLETED
  · refine ⟨[⟨"GetDate", []⟩, ⟨"anime::Item::SetMyDate",
      [.int st.current_id, .sym "anime::DATE_END", .str (env.retStr (st.call "GetDate" [])),
       .flag false, .flag true]⟩], ?_, by simp [callsNamed]⟩
    by_cases h0 : item.episode_count = 0
    · simp [queueStatus, setEndDate, State.call, hs, h0]
    · by_cases h1 : item.episode_count = -1
      · simp [queueStatus, setEndDate, State.call, hs, h1]
      · simp [queueStatus, setEndDate, State.call, hs, h0, h1]
  · refine ⟨[], ?_, by simp [callsNamed]⟩
    simp [queueStatus, State.call, hs]

/-- C15 fails as stated: for a finished item whose episode count is -1 and the
target status Completed (2), the episode count is non-zero, yet the one event
queued has mode `HTTP_MAL_StatusUpdate` (with episode -1), not
`HTTP_MAL_AnimeEdit`. -/
theorem EditStatus_completed_minus_one :
    GetCurrentItem (stateWith (itemWith .STATUS_FINISHED (-1) 0))
        = some (itemWith .STATUS_FINISHED (-1) 0)
    ∧ toInt32 (stdEnv.ToInt "2") = stdEnv.MYSTATUS_COMPLETED
    ∧ (itemWith .STATUS_FINISHED (-1) 0).episode_count ≠ 0
    ∧ ExecuteAction stdEnv 1 "EditStatus(2)" 0 0 (stateWith (itemWith .STATUS_FINISHED (-1) 0))
      = .done (((((stateWith (itemWith .STATUS_FINISHED (-1) 0)).print
            "Action :: EditStatus(2)\n").call "GetDate" []).call "anime::Item::SetMyDate"
            [.int 7, .sym "anime::DATE_END", .str "", .flag false, .flag true]).call
          "EventQueue.Add"
            [.event { anime_id := some 7, episode := some (-1), status := some 2,
                      mode := some .HTTP_MAL_StatusUpdate }]) := by
  refine ⟨by decide, by decide, by decide, ?_⟩
  rfl

/-- C15 as amended: for every state whose current item has airing status
airing, finished or not-yet-aired and every target status that passes the
transition guard, `EditStatus` returns having queued exactly one event (the
last call of the run, after at most the two calls that set the end date),
carrying the current anime id and the target status; the event has episode =
the episode count of the item and mode `HTTP_MAL_AnimeEdit` when the target is
Completed and the episode count is neither 0 nor -1, and episode = -1 and mode
`HTTP_MAL_StatusUpdate` in every other case; for any other airing status
`EditStatus` calls nothing and changes nothing (only the line of `debug::Print`
is added). -/
theorem EditStatus_enqueues (env : Env) (fuel : Nat) (action body : String)
    (wParam lParam : Int) (st : State) (item : Item)
    (hparse : parseAction env.size_bits env.trim_chars action = ("EditStatus", body))
    (hitem : GetCurrentItem st = some item) :
    ((item.airing_status = .STATUS_AIRING
          ∧ toInt32 (env.ToInt body) ≠ env.MYSTATUS_COMPLETED)
        ∨ item.airing_status = .STATUS_FINISHED
        ∨ (item.airing_status = .STATUS_NOTYETAIRED
          ∧ toInt32 (env.ToInt body) = env.MYSTATUS_PLANTOWATCH) →
      ∃ (st1 : State) (pre : List Call),
        ExecuteAction env (fuel + 1) action wParam lParam st = .done st1
        ∧ st1.calls = st.calls ++ pre ++
          [⟨"EventQueue.Add",
            [.event
              { anime_id := some st.current_id
                episode := some
                  (if toInt32 (env.ToInt body) = env.MYSTATUS_COMPLETED
                      ∧ item.episode_count ≠ 0 ∧ item.episode_count ≠ -1
                   then item.episode_count else -1)
                status := some (toInt32 (env.ToInt body))
                mode := some
                  (if toInt32 (env.ToInt body) = env.MYSTATUS_COMPLETED
                      ∧ item.episode_count ≠ 0 ∧ item.episode_count ≠ -1
                   then .HTTP_MAL_AnimeEdit else .HTTP_MAL_StatusUpdate) }]⟩]
        ∧ callsNamed "EventQueue.Add" pre = [])
    ∧ (∀ code : Int, item.airing_status = .other code →
        ExecuteAction env (fuel + 1) action wParam lParam st
          = .done (st.print ("Action :: " ++ action ++ "\n"))) := by
  have hitem2 : GetCurrentItem (st.print ("Action :: " ++ action ++ "\n")) = some item := hitem
  have e : ExecuteAction env (fuel + 1) action wParam lParam st
      = EditStatus env body (st.print ("Action :: " ++ action ++ "\n")) := by
    simp [ExecuteAction, hparse]
  constructor
  · intro hok
    obtain ⟨pre, h1, h2⟩ := queueStatus_calls env (toInt32 (env.ToInt body)) item
      (st.print ("Action :: " ++ action ++ "\n"))
    refine ⟨queueStatus env (toInt32 (env.ToInt body)) item
      (st.print ("Action :: " ++ action ++ "\n")), pre, ?_, h1, h2⟩
    rw [e]
    rcases hok with ⟨ha, hs⟩ | ha | ⟨ha, hs⟩
    · simp only [EditStatus, hitem2, ha, hs, if_false]
    · simp only [EditStatus, hitem2, ha]
    · simp only [EditStatus, hitem2, ha, hs, ne_eq, not_true_eq_false, if_false]
  · intro code ha
    rw [e]
    simp only [EditStatus, hitem2, ha]

/-- C15 as amended, at `EditStatus(2)` (Completed) for a finished
twelve-episode item: one event, episode 12, mode `HTTP_MAL_AnimeEdit`. -/
theorem EditStatus_enqueues_witness :
    ∃ (st1 : State) (pre : List Call),
      ExecuteAction stdEnv 1 "EditStatus(2)" 0 0 (sampleState .STATUS_FINISHED) = .done st1
      ∧ st1.calls = (sampleState .STATUS_FINISHED).calls ++ pre ++
        [⟨"EventQueue.Add",
          [.event
            { anime_id := some 7
              episode := some 12
              status := some 2
              mode := some .HTTP_MAL_AnimeEdit }]⟩]
      ∧ callsNamed "EventQueue.Add" pre = [] :=
  (EditStatus_enqueues stdEnv 0 "EditStatus(2)" "2" 0 0 (sampleState .STATUS_FINISHED)
    (sampleItem .STATUS_FINISHED) (by decide) (by decide)).1 (Or.inr (Or.inl rfl))

end Taiga
